import Mathlib

/-!
Shallow embedding of the `ai-accounting-platform` backend
(`backend/core/auth.py`, `backend/core/config.py`, `backend/main.py`,
`backend/routers/datasets.py`, `backend/routers/clients.py`,
`backend/routers/reports.py`).

Python strings and JSON text are modelled as lists of Unicode code points
(`List Nat`); raw bytes are also `List Nat`.  The external Supabase store is a
record of table rows.  A store query either succeeds against the table data or
"raises"; which queries raise is modelled by a schedule `fail : Nat → Bool`
indexed by the order in which the handler issues queries.  `Outcome.raised`
models a Python exception escaping the handler (as opposed to the handler
raising a FastAPI `HTTPException`, modelled by `Outcome.httpError`).
-/

/-- Code points of a Lean string literal (model of a Python `str`). -/
def strCodes (s : String) : List Nat := s.data.map Char.toNat

/-- Python `str.partition(" ")`: the part before the first space and the part
after it.  When no space occurs the second component is empty, which is how the
source code treats a missing separator (the token is falsy). -/
def pyPartitionSpace : List Nat → List Nat × List Nat
  | [] => ([], [])
  | c :: rest =>
    if c = 32 then ([], rest)
    else
      let p := pyPartitionSpace rest
      (c :: p.1, p.2)

/-- ASCII lower-casing, model of `str.lower()` on the scheme word. -/
def asciiLower (s : List Nat) : List Nat :=
  s.map (fun c => if 65 ≤ c ∧ c ≤ 90 then c + 32 else c)

/-- Python `token.split(".")`: split on every dot, keeping empty segments. -/
def splitOnDot : List Nat → List (List Nat)
  | [] => [[]]
  | c :: rest =>
    let r := splitOnDot rest
    if c = 46 then [] :: r
    else
      match r with
      | g :: gs => (c :: g) :: gs
      | [] => [[c]]

/-- Value of a base64 alphabet character (after the urlsafe translation),
`none` for characters outside the alphabet. -/
def b64CharVal (c : Nat) : Option Nat :=
  if 65 ≤ c ∧ c ≤ 90 then some (c - 65)
  else if 97 ≤ c ∧ c ≤ 122 then some (c - 97 + 26)
  else if 48 ≤ c ∧ c ≤ 57 then some (c - 48 + 52)
  else if c = 43 then some 62
  else if c = 47 then some 63
  else none

/-- `base64.urlsafe_b64decode` first translates `-` to `+` and `_` to `/`. -/
def urlsafeTranslate (c : Nat) : Nat :=
  if c = 45 then 43 else if c = 95 then 47 else c

/-- Bytes encoded by a full quad of four 6-bit values. -/
def b64Emit4 (a b c d : Nat) : List Nat :=
  [a * 4 + b / 16, (b % 16) * 16 + c / 4, (c % 4) * 64 + d]

/-- Bytes encoded by the final short quad (two or three values), discarding the
unused low bits as CPython's `binascii.a2b_base64` does. -/
def b64EmitLast : List Nat → List Nat
  | [a, b] => [a * 4 + b / 16]
  | [a, b, c] => [a * 4 + b / 16, (b % 16) * 16 + c / 4]
  | _ => []

/-- CPython 3.x `binascii.a2b_base64` in non-strict mode: characters outside
the alphabet are discarded, `=` increments a pad counter that data characters
reset, and decoding finishes (ignoring the rest of the input) once a quad of
two or three data characters has collected enough pads; input ending inside a
quad is a `binascii.Error` (a `ValueError`). -/
def b64Go : List Nat → List Nat → Nat → List Nat → Option (List Nat)
  | [], quad, _pads, out => if quad.length = 0 then some out else none
  | c :: rest, quad, pads, out =>
    if c = 61 then
      if 2 ≤ quad.length ∧ 4 ≤ quad.length + pads + 1 then
        some (out ++ b64EmitLast quad)
      else b64Go rest quad (pads + 1) out
    else
      match b64CharVal c with
      | some v =>
        match quad with
        | [a, b, c0] => b64Go rest [] 0 (out ++ b64Emit4 a b c0 v)
        | q => b64Go rest (q ++ [v]) 0 out
      | none => b64Go rest quad pads out

/-- Model of `base64.urlsafe_b64decode` applied to a (char-count-padded)
payload segment. -/
def pyUrlsafeB64Decode (cs : List Nat) : Option (List Nat) :=
  b64Go (cs.map urlsafeTranslate) [] 0 []

/-- Strict UTF-8 decoding of a byte list to code points (model of
`bytes.decode("utf-8")`; failures are `UnicodeDecodeError`, a `ValueError`).
Overlong encodings, surrogates and code points above `0x10FFFF` are
rejected. -/
def utf8Decode : List Nat → Option (List Nat)
  | [] => some []
  | b :: rest =>
    if b < 128 then (utf8Decode rest).map (fun l => b :: l)
    else if b < 194 then none
    else if b < 224 then
      match rest with
      | b2 :: rest2 =>
        if 128 ≤ b2 ∧ b2 < 192 then
          (utf8Decode rest2).map (fun l => ((b - 192) * 64 + (b2 - 128)) :: l)
        else none
      | _ => none
    else if b < 240 then
      match rest with
      | b2 :: b3 :: rest2 =>
        if 128 ≤ b2 ∧ b2 < 192 ∧ 128 ≤ b3 ∧ b3 < 192 then
          let cp := (b - 224) * 4096 + (b2 - 128) * 64 + (b3 - 128)
          if 2048 ≤ cp ∧ ¬(55296 ≤ cp ∧ cp ≤ 57343) then
            (utf8Decode rest2).map (fun l => cp :: l)
          else none
        else none
      | _ => none
    else if b < 245 then
      match rest with
      | b2 :: b3 :: b4 :: rest2 =>
        if 128 ≤ b2 ∧ b2 < 192 ∧ 128 ≤ b3 ∧ b3 < 192 ∧ 128 ≤ b4 ∧ b4 < 192 then
          let cp := (b - 240) * 262144 + (b2 - 128) * 4096 + (b3 - 128) * 64 + (b4 - 128)
          if 65536 ≤ cp ∧ cp ≤ 1114111 then
            (utf8Decode rest2).map (fun l => cp :: l)
          else none
        else none
      | _ => none
    else none

/-- JSON values as produced by Python's `json.loads`.  Integer literals become
arbitrary-precision `Int`s; a numeric literal with a fraction or exponent
becomes a float, modelled here by its exact decimal value `m * 10 ^ e`
(IEEE-754 rounding is not modelled); `NaN`, `Infinity` and `-Infinity` are
accepted by `json.loads` and modelled by their own constructors. -/
inductive Json where
  | null : Json
  | jbool (b : Bool) : Json
  | jint (n : Int) : Json
  | jnum (m : Int) (e : Int) : Json
  | jnan : Json
  | jinf (neg : Bool) : Json
  | jstr (s : List Nat) : Json
  | jarr (xs : List Json) : Json
  | jobj (kvs : List (List Nat × Json)) : Json

/-- JSON whitespace accepted by Python's `json` module. -/
def jsonWs (c : Nat) : Bool :=
  c = 32 || c = 9 || c = 10 || c = 13

def skipWs (cs : List Nat) : List Nat := cs.dropWhile jsonWs

def isDigit (c : Nat) : Bool := 48 ≤ c && c ≤ 57

/-- Leading decimal digits of the input and the remainder. -/
def takeDigits : List Nat → List Nat × List Nat
  | [] => ([], [])
  | c :: rest =>
    if isDigit c then
      let p := takeDigits rest
      (c :: p.1, p.2)
    else ([], c :: rest)

/-- Numeric value of a digit list. -/
def digitsVal (ds : List Nat) : Nat :=
  ds.foldl (fun acc c => acc * 10 + (c - 48)) 0

/-- Hex digit value for `\uXXXX` escapes. -/
def hexVal (c : Nat) : Option Nat :=
  if 48 ≤ c ∧ c ≤ 57 then some (c - 48)
  else if 97 ≤ c ∧ c ≤ 102 then some (c - 97 + 10)
  else if 65 ≤ c ∧ c ≤ 70 then some (c - 65 + 10)
  else none

/-- JSON string body after the opening quote: content code points and the
remainder after the closing quote.  Control characters below `0x20` are
rejected (Python `strict=True`); the standard escapes and `\uXXXX` (with
surrogate pairs) are handled. -/
def pStr : Nat → List Nat → Option (List Nat × List Nat)
  | 0, _ => none
  | fuel + 1, cs =>
    match cs with
    | [] => none
    | c :: rest =>
      if c = 34 then some ([], rest)
      else if c = 92 then
        match rest with
        | [] => none
        | e :: r2 =>
          if e = 117 then
            match r2 with
            | h1 :: h2 :: h3 :: h4 :: r3 =>
              match hexVal h1, hexVal h2, hexVal h3, hexVal h4 with
              | some a, some b, some c2, some d =>
                let cp := a * 4096 + b * 256 + c2 * 16 + d
                if 55296 ≤ cp ∧ cp ≤ 56319 then
                  match r3 with
                  | 92 :: 117 :: g1 :: g2 :: g3 :: g4 :: r4 =>
                    match hexVal g1, hexVal g2, hexVal g3, hexVal g4 with
                    | some a2, some b2, some c3, some d2 =>
                      let lo := a2 * 4096 + b2 * 256 + c3 * 16 + d2
                      if 56320 ≤ lo ∧ lo ≤ 57343 then
                        (pStr fuel r4).map
                          (fun p => ((65536 + (cp - 55296) * 1024 + (lo - 56320)) :: p.1, p.2))
                      else none
                    | _, _, _, _ => none
                  | _ => none
                else if 56320 ≤ cp ∧ cp ≤ 57343 then none
                else (pStr fuel r3).map (fun p => (cp :: p.1, p.2))
              | _, _, _, _ => none
            | _ => none
          else
            let esc : Option Nat :=
              if e = 34 then some 34
              else if e = 92 then some 92
              else if e = 47 then some 47
              else if e = 98 then some 8
              else if e = 102 then some 12
              else if e = 110 then some 10
              else if e = 114 then some 13
              else if e = 116 then some 9
              else none
            match esc with
            | some v => (pStr fuel r2).map (fun p => (v :: p.1, p.2))
            | none => none
      else if c < 32 then none
      else (pStr fuel rest).map (fun p => (c :: p.1, p.2))

/-- JSON number starting at the input (which begins with `-` or a digit):
`jint` when there is no fraction and no exponent, otherwise the exact decimal
`jnum`. -/
def pNum (cs : List Nat) : Option (Json × List Nat) :=
  let (neg, cs1) :=
    match cs with
    | 45 :: rest => (true, rest)
    | _ => (false, cs)
  let (ip, cs2) := takeDigits cs1
  if ip.isEmpty then none
  else if 1 < ip.length ∧ ip.headI = 48 then none
  else
    let (fp, cs3) :=
      match cs2 with
      | 46 :: rest =>
        let p := takeDigits rest
        (some p.1, p.2)
      | _ => (none, cs2)
    match fp with
    | some [] => none
    | _ =>
      let (ep, cs4) :=
        match cs3 with
        | 101 :: rest | 69 :: rest =>
          let (esign, r2) :=
            match rest with
            | 43 :: r3 => (1, r3)
            | 45 :: r3 => (-1, r3)
            | _ => ((1 : Int), rest)
          let p := takeDigits r2
          if p.1.isEmpty then (some none, cs3)
          else (some (some (esign * (digitsVal p.1 : Int))), p.2)
        | _ => (none, cs3)
      match ep with
      | some none => none
      | _ =>
        let sgn : Int := if neg then -1 else 1
        match fp, ep with
        | none, none => some (.jint (sgn * (digitsVal ip : Int)), cs4)
        | _, _ =>
          let frac := fp.getD []
          let m : Int := sgn * (digitsVal (ip ++ frac) : Int)
          let e : Int := (ep.getD none).getD 0 - (frac.length : Int)
          some (.jnum m e, cs4)

/-- Parser modes: a single value, the items of a non-empty array, or the
members of a non-empty object. -/
inductive PMode where
  | one : PMode
  | arrItems : PMode
  | objItems : PMode

/-- Parser results for the three modes. -/
inductive PRes where
  | v (j : Json) (rest : List Nat) : PRes
  | vs (xs : List Json) (rest : List Nat) : PRes
  | kvs (ms : List (List Nat × Json)) (rest : List Nat) : PRes

/-- Does the input start with the given literal word? -/
def startsWithCodes (w cs : List Nat) : Bool :=
  cs.take w.length == w

/-- Recursive-descent JSON parser (Python `json.loads` grammar, including the
non-standard `NaN`, `Infinity` and `-Infinity` accepted by default), fuelled
to make the recursion structural. -/
def pJ : Nat → PMode → List Nat → Option PRes
  | 0, _, _ => none
  | fuel + 1, .one, cs =>
    let cs := skipWs cs
    match cs with
    | [] => none
    | c :: rest =>
      if c = 34 then
        (pStr (rest.length + 1) rest).map (fun p => .v (.jstr p.1) p.2)
      else if c = 91 then
        let r1 := skipWs rest
        match r1 with
        | 93 :: r2 => some (.v (.jarr []) r2)
        | _ =>
          match pJ fuel .arrItems rest with
          | some (.vs xs r2) => some (.v (.jarr xs) r2)
          | _ => none
      else if c = 123 then
        let r1 := skipWs rest
        match r1 with
        | 125 :: r2 => some (.v (.jobj []) r2)
        | _ =>
          match pJ fuel .objItems rest with
          | some (.kvs ms r2) => some (.v (.jobj ms) r2)
          | _ => none
      else if startsWithCodes (strCodes "true") cs then
        some (.v (.jbool true) (cs.drop 4))
      else if startsWithCodes (strCodes "false") cs then
        some (.v (.jbool false) (cs.drop 5))
      else if startsWithCodes (strCodes "null") cs then
        some (.v .null (cs.drop 4))
      else if startsWithCodes (strCodes "NaN") cs then
        some (.v .jnan (cs.drop 3))
      else if startsWithCodes (strCodes "Infinity") cs then
        some (.v (.jinf false) (cs.drop 8))
      else if startsWithCodes (strCodes "-Infinity") cs then
        some (.v (.jinf true) (cs.drop 9))
      else if c = 45 ∨ isDigit c then
        (pNum cs).map (fun p => .v p.1 p.2)
      else none
  | fuel + 1, .arrItems, cs =>
    match pJ fuel .one cs with
    | some (.v j r) =>
      match skipWs r with
      | 93 :: r2 => some (.vs [j] r2)
      | 44 :: r2 =>
        match pJ fuel .arrItems r2 with
        | some (.vs xs rr) => some (.vs (j :: xs) rr)
        | _ => none
      | _ => none
    | _ => none
  | fuel + 1, .objItems, cs =>
    match skipWs cs with
    | 34 :: r1 =>
      match pStr (r1.length + 1) r1 with
      | some (k, r2) =>
        match skipWs r2 with
        | 58 :: r3 =>
          match pJ fuel .one r3 with
          | some (.v j r4) =>
            match skipWs r4 with
            | 125 :: r5 => some (.kvs [(k, j)] r5)
            | 44 :: r5 =>
              match pJ fuel .objItems r5 with
              | some (.kvs ms rr) => some (.kvs ((k, j) :: ms) rr)
              | _ => none
            | _ => none
          | _ => none
        | _ => none
      | none => none
    | _ => none

/-- Model of `json.loads` on a decoded text: one JSON value surrounded by
optional whitespace. -/
def jsonLoads (cs : List Nat) : Option Json :=
  match pJ (cs.length + 1) .one cs with
  | some (.v j rest) => if (skipWs rest).isEmpty then some j else none
  | _ => none

/-- Truthiness of a JSON-decoded Python value (`if not x`). -/
def pyTruthy : Json → Bool
  | .null => false
  | .jbool b => b
  | .jint n => n != 0
  | .jnum m _ => m != 0
  | .jnan => true
  | .jinf _ => true
  | .jstr s => !s.isEmpty
  | .jarr xs => !xs.isEmpty
  | .jobj kvs => !kvs.isEmpty

/-- `dict.get`: Python dicts keep the last of duplicate keys, so lookup
prefers the last binding. -/
def jGetLast : List (List Nat × Json) → List Nat → Option Json
  | [], _ => none
  | (k0, v0) :: rest, key =>
    match jGetLast rest key with
    | some v => some v
    | none => if k0 == key then some v0 else none

def isPyWsC (c : Nat) : Bool := c = 32 || c = 9 || c = 10 || c = 11 || c = 12 || c = 13

def stripWs (s : List Nat) : List Nat :=
  ((s.dropWhile isPyWsC).reverse.dropWhile isPyWsC).reverse

/-- Digits of a Python integer literal, allowing single underscores between
digits, accumulating the value. -/
def pyDigAux : List Nat → Nat → Option Nat
  | [], acc => some acc
  | c :: rest, acc =>
    if isDigit c then pyDigAux rest (acc * 10 + (c - 48))
    else if c = 95 then
      match rest with
      | d :: rest2 => if isDigit d then pyDigAux rest2 (acc * 10 + (d - 48)) else none
      | [] => none
    else none

/-- Python `int(str)`: surrounding whitespace, an optional sign, then digits
with optional single underscores between them. -/
def pyIntOfStr (s : List Nat) : Option Int :=
  let t := stripWs s
  let p : Int × List Nat :=
    match t with
    | 43 :: rest => (1, rest)
    | 45 :: rest => (-1, rest)
    | _ => (1, t)
  match p.2 with
  | c :: _ => if isDigit c then (pyDigAux p.2 0).map (fun n => p.1 * n) else none
  | [] => none

/-- Model of Python `int(x)` on a JSON-decoded value: defined where Python
succeeds (`int`, `bool`, integer-literal strings, and non-integer numbers by
exact decimal truncation); `none` where Python raises (`TypeError`,
`ValueError` or `OverflowError`), which `get_current_user` does not catch. -/
def pyInt : Json → Option Int
  | .jint n => some n
  | .jbool b => some (if b then 1 else 0)
  | .jstr s => pyIntOfStr s
  | .jnum m e => some (if 0 ≤ e then m * (10 : Int) ^ e.toNat else Int.tdiv m ((10 : Int) ^ (-e).toNat))
  | _ => none

def natDecAux : Nat → Nat → List Nat
  | 0, _ => []
  | fuel + 1, n => if n < 10 then [48 + n] else natDecAux fuel (n / 10) ++ [48 + n % 10]

/-- Decimal digits of a natural number. -/
def natDec (n : Nat) : List Nat := natDecAux (n + 1) n

/-- Decimal representation of an integer. -/
def intDec (n : Int) : List Nat := if n < 0 then 45 :: natDec (-n).toNat else natDec n.toNat

/-- Serialization of the decoded `sub` claim as the `.eq("auth_user_id", v)`
query parameter: exact for strings, which is the only case the theorems below
exercise; container values are not serialized faithfully. -/
def jAsEq : Json → List Nat
  | .jstr s => s
  | .jint n => intDec n
  | .jbool b => if b then strCodes "True" else strCodes "False"
  | .jnum m e => intDec m ++ [101] ++ intDec e
  | .jnan => strCodes "nan"
  | .jinf neg => if neg then strCodes "-inf" else strCodes "inf"
  | .null => strCodes "None"
  | .jarr _ => strCodes "<list>"
  | .jobj _ => strCodes "<dict>"

/-- Result of one request-handler step: a returned value, a raised FastAPI
`HTTPException` with its status code and detail, or a Python exception
escaping the handler uncaught. -/
inductive Outcome (α : Type) where
  | ok (a : α) : Outcome α
  | httpError (code : Nat) (detail : String) : Outcome α
  | raised : Outcome α
  deriving DecidableEq, Repr

/-- `_decode_jwt_unverified`'s base64url-and-JSON pipeline on the payload
segment: pad with `=` to a multiple of four characters, base64url-decode,
UTF-8-decode, `json.loads`.  All three failure modes raise exceptions caught
by the `except (ValueError, json.JSONDecodeError)` clause. -/
def payloadDecode (p : List Nat) : Option Json :=
  let padded := p ++ List.replicate ((4 - p.length % 4) % 4) 61
  match pyUrlsafeB64Decode padded with
  | none => none
  | some bs =>
    match utf8Decode bs with
    | none => none
    | some cps => jsonLoads cps

/-- `_decode_jwt_unverified` (`backend/core/auth.py`): split the token on
dots, require exactly three segments, and decode the second one.  No
signature verification happens anywhere. -/
def decode_jwt_unverified (token : List Nat) : Outcome Json :=
  match splitOnDot token with
  | [_h, payloadB64, _s] =>
    match payloadDecode payloadB64 with
    | none => .httpError 401 "Invalid JWT payload"
    | some j => .ok j
  | _ => .httpError 401 "Invalid JWT format"

/-- Row of the `app_users` table. -/
structure AppUserRow where
  id : String
  auth_user_id : String
  firm_id : String
  role : String
  email : String
  deriving DecidableEq, Repr

/-- Row of the `clients` table. -/
structure ClientRow where
  id : String
  name : String
  firm_id : String
  deriving DecidableEq, Repr

/-- Row of the `client_user_access` access-grant table. -/
structure AccessRow where
  user_id : String
  firm_id : String
  client_id : String
  deriving DecidableEq, Repr

/-- Row of the `upload_batches` (dataset) table.  `created_by` and
`app_user_id` are the optional user-reference columns that
`_insert_dataset_with_user_reference` probes for. -/
structure BatchRow where
  id : String
  client_id : String
  firm_id : String
  name : String
  notes : Option String
  status : String
  created_at : String
  created_by : Option String
  app_user_id : Option String
  deriving DecidableEq, Repr

/-- Row of the `uploaded_files` table. -/
structure FileRow where
  id : String
  dataset_id : String
  client_id : String
  firm_id : String
  filename : String
  file_type : String
  storage_path : String
  size_bytes : Int
  status : String
  created_at : String
  deriving DecidableEq, Repr

/-- The external relational store. -/
structure DB where
  app_users : List AppUserRow
  clients : List ClientRow
  client_user_access : List AccessRow
  upload_batches : List BatchRow
  uploaded_files : List FileRow
  deriving DecidableEq, Repr

/-- The authenticated caller as shaped by `get_current_user`. -/
structure CurrentUser where
  app_user_id : String
  auth_user_id : String
  firm_id : String
  role : String
  email : String
  deriving DecidableEq, Repr

/-- Claims-checking half of `get_current_user`, applied to the decoded
payload: check `sub` truthiness, `exp` presence and expiry, then look the
user up in `app_users`.  That lookup is the one store query in the function
and is not inside any `try`, so its failure is `raised`, not an
`HTTPException`. -/
def gcuClaims (db : DB) (fail : Nat → Bool) (now : Int) (k : Nat) (payload : Json) :
    Outcome CurrentUser × Nat :=
  match payload with
  | .jobj kvs =>
    match jGetLast kvs (strCodes "sub") with
    | none => (.httpError 401 "JWT subject (sub) claim missing", k)
    | some sv =>
      if ¬ pyTruthy sv then (.httpError 401 "JWT subject (sub) claim missing", k)
      else
        match jGetLast kvs (strCodes "exp") with
        | none => (.httpError 401 "JWT exp claim missing", k)
        | some .null => (.httpError 401 "JWT exp claim missing", k)
        | some ev =>
          match pyInt ev with
          | none => (.raised, k)
          | some n =>
            if n < now then (.httpError 401 "JWT has expired", k)
            else if fail k then (.raised, k + 1)
            else
              match (db.app_users.filter
                  (fun r => strCodes r.auth_user_id == jAsEq sv)).head? with
              | none => (.httpError 403 "No app user record; create app_users row.", k + 1)
              | some r => (.ok ⟨r.id, r.auth_user_id, r.firm_id, r.role, r.email⟩, k + 1)
  | _ => (.raised, k)

/-- `get_current_user` (`backend/core/auth.py`): header checks, unverified
JWT decode, claims checks, `app_users` lookup.  `now` models
`int(time.time())`; the second component is the next query index. -/
def get_current_user (db : DB) (fail : Nat → Bool) (now : Int) (k : Nat)
    (authorization : Option String) : Outcome CurrentUser × Nat :=
  match authorization with
  | none => (.httpError 401 "Authorization header missing", k)
  | some a =>
    if a = "" then (.httpError 401 "Authorization header missing", k)
    else
      let p := pyPartitionSpace (strCodes a)
      if ¬(asciiLower p.1 = strCodes "bearer") ∨ p.2 = [] then
        (.httpError 401 "Authorization header must be a Bearer token", k)
      else
        match decode_jwt_unverified p.2 with
        | .ok payload => gcuClaims db fail now k payload
        | .httpError c d => (.httpError c d, k)
        | .raised => (.raised, k)

def DATASET_STATUS_CREATED : String := "created"
def DATASET_STATUS_READY : String := "ready"
def FILE_STATUS_UPLOADED : String := "uploaded"
def FILE_STATUS_PROCESSED : String := "processed"

/-- Rows returned by the `client_user_access` query of
`_require_client_access` (filter by user, firm and client). -/
def accessRows (db : DB) (u : CurrentUser) (client_id : String) : List AccessRow :=
  db.client_user_access.filter
    (fun r => r.user_id == u.app_user_id && r.firm_id == u.firm_id && r.client_id == client_id)

/-- `_require_client_access` (`backend/routers/datasets.py`): 500 when the
query raises, 403 when no access-grant row matches. -/
def require_client_access (db : DB) (fail : Nat → Bool) (k : Nat) (u : CurrentUser)
    (client_id : String) : Outcome Unit × Nat :=
  if fail k then (.httpError 500 "Supabase query failed", k + 1)
  else if (accessRows db u client_id).isEmpty then
    (.httpError 403 "User does not have access to this client", k + 1)
  else (.ok (), k + 1)

/-- Rows returned by the `client_user_access` query filtered by user and firm
only (`_get_accessible_client_ids` and `list_clients`). -/
def userAccessRows (db : DB) (u : CurrentUser) : List AccessRow :=
  db.client_user_access.filter
    (fun r => r.user_id == u.app_user_id && r.firm_id == u.firm_id)

/-- `_get_accessible_client_ids`: the granted client ids, dropping falsy
(empty) ones as the list comprehension's `if row.get("client_id")` does. -/
def get_accessible_client_ids (db : DB) (fail : Nat → Bool) (k : Nat) (u : CurrentUser) :
    Outcome (List String) × Nat :=
  if fail k then (.httpError 500 "Supabase query failed", k + 1)
  else (.ok (((userAccessRows db u).map (fun r => r.client_id)).filter (fun c => c ≠ "")), k + 1)

/-- Rows returned by the `upload_batches` query of `_fetch_dataset` (filter
by dataset id and firm). -/
def batchRows (db : DB) (dataset_id firm_id : String) : List BatchRow :=
  db.upload_batches.filter (fun b => b.id == dataset_id && b.firm_id == firm_id)

/-- `_fetch_dataset`: 500 when the query raises, 404 when no row matches the
dataset id and the caller's firm, otherwise the first matching row. -/
def fetch_dataset (db : DB) (fail : Nat → Bool) (k : Nat) (dataset_id firm_id : String) :
    Outcome BatchRow × Nat :=
  if fail k then (.httpError 500 "Supabase query failed", k + 1)
  else
    match batchRows db dataset_id firm_id with
    | [] => (.httpError 404 "Dataset not found", k + 1)
    | b :: _ => (.ok b, k + 1)

/-- `_insert_dataset_with_user_reference`: try the insert with a
`created_by` column, then with `app_user_id`, then with neither.  An
exception on an attempt that includes a user column always falls through to
the next attempt (every `except` branch with a user column ends in
`continue`); only when the final plain attempt also fails is HTTP 500
raised. -/
def insert_dataset_with_user_reference (db : DB) (fail : Nat → Bool) (k : Nat)
    (firm_id client_id name : String) (notes : Option String)
    (user_id gen_id gen_created_at : String) : Outcome BatchRow × DB × Nat :=
  let mk : Option String → Option String → BatchRow := fun cb au =>
    ⟨gen_id, client_id, firm_id, name, notes, DATASET_STATUS_CREATED, gen_created_at, cb, au⟩
  if fail k then
    if fail (k + 1) then
      if fail (k + 2) then (.httpError 500 "Supabase query failed", db, k + 3)
      else
        let row := mk none none
        (.ok row, { db with upload_batches := db.upload_batches ++ [row] }, k + 3)
    else
      let row := mk none (some user_id)
      (.ok row, { db with upload_batches := db.upload_batches ++ [row] }, k + 2)
  else
    let row := mk (some user_id) none
    (.ok row, { db with upload_batches := db.upload_batches ++ [row] }, k + 1)

/-- `create_dataset`'s response shape. -/
structure CreateResp where
  dataset_id : String
  status : String
  deriving DecidableEq, Repr

/-- Body of `POST /datasets/create` after dependency resolution:
access check then insert.  `gen_id` and `gen_created_at` model the values the
store generates for the inserted row. -/
def create_dataset_body (db : DB) (fail : Nat → Bool) (k : Nat) (u : CurrentUser)
    (client_id name : String) (notes : Option String) (gen_id gen_created_at : String) :
    Outcome CreateResp × DB × Nat :=
  match require_client_access db fail k u client_id with
  | (.ok _, k1) =>
    match insert_dataset_with_user_reference db fail k1 u.firm_id client_id name notes
        u.app_user_id gen_id gen_created_at with
    | (.ok row, db2, k2) => (.ok ⟨row.id, row.status⟩, db2, k2)
    | (.httpError c d, db2, k2) => (.httpError c d, db2, k2)
    | (.raised, db2, k2) => (.raised, db2, k2)
  | (.httpError c d, k1) => (.httpError c d, db, k1)
  | (.raised, k1) => (.raised, db, k1)

/-- An element of `GET /datasets`' response. -/
structure DatasetListItem where
  dataset_id : String
  client_id : String
  name : String
  status : String
  created_at : String
  deriving DecidableEq, Repr

/-- Body of `GET /datasets`: accessible client ids, early empty return, then
the firm-and-clients-scoped `upload_batches` query. -/
def list_datasets_body (db : DB) (fail : Nat → Bool) (k : Nat) (u : CurrentUser) :
    Outcome (List DatasetListItem) × DB × Nat :=
  match get_accessible_client_ids db fail k u with
  | (.ok ids, k1) =>
    if ids.isEmpty then (.ok [], db, k1)
    else if fail k1 then (.httpError 500 "Supabase query failed", db, k1 + 1)
    else
      let rows := db.upload_batches.filter
        (fun b => b.firm_id == u.firm_id && ids.contains b.client_id)
      (.ok (rows.map (fun b => ⟨b.id, b.client_id, b.name, b.status, b.created_at⟩)), db, k1 + 1)
  | (.httpError c d, k1) => (.httpError c d, db, k1)
  | (.raised, k1) => (.raised, db, k1)

/-- A file row as shaped by `get_dataset_detail`'s select list. -/
structure FileOut where
  id : String
  filename : String
  file_type : String
  storage_path : String
  size_bytes : Int
  status : String
  created_at : String
  deriving DecidableEq, Repr

/-- The `integrity` object of dataset responses. -/
structure Integrity where
  files_total : Nat
  files_processed : Nat
  errors : List String
  warnings : List String
  deriving DecidableEq, Repr

/-- `GET /datasets/{id}`'s response shape. -/
structure DetailResp where
  dataset_id : String
  client_id : String
  name : String
  notes : Option String
  status : String
  created_at : String
  files : List FileOut
  integrity : Integrity
  deriving DecidableEq, Repr

/-- Rows returned by the `uploaded_files` query (filter by dataset and
firm). -/
def fileRows (db : DB) (dataset_id firm_id : String) : List FileRow :=
  db.uploaded_files.filter (fun f => f.dataset_id == dataset_id && f.firm_id == firm_id)

/-- Body of `GET /datasets/{dataset_id}`: fetch the dataset, check access
against its client, fetch its files, and shape the response; the integrity
object hardcodes `files_processed = 0` and empty error and warning lists. -/
def get_dataset_detail_body (db : DB) (fail : Nat → Bool) (k : Nat) (u : CurrentUser)
    (dataset_id : String) : Outcome DetailResp × DB × Nat :=
  match fetch_dataset db fail k dataset_id u.firm_id with
  | (.ok b, k1) =>
    match require_client_access db fail k1 u b.client_id with
    | (.ok _, k2) =>
      if fail k2 then (.httpError 500 "Supabase query failed", db, k2 + 1)
      else
        let files := (fileRows db dataset_id u.firm_id).map
          (fun f => (⟨f.id, f.filename, f.file_type, f.storage_path, f.size_bytes,
            f.status, f.created_at⟩ : FileOut))
        (.ok ⟨b.id, b.client_id, b.name, b.notes, b.status, b.created_at, files,
          ⟨files.length, 0, [], []⟩⟩, db, k2 + 1)
    | (.httpError c d, k2) => (.httpError c d, db, k2)
    | (.raised, k2) => (.raised, db, k2)
  | (.httpError c d, k1) => (.httpError c d, db, k1)
  | (.raised, k1) => (.raised, db, k1)

/-- `POST /datasets/{id}/files`' response shape. -/
structure FileCreateResp where
  file_id : String
  deriving DecidableEq, Repr

/-- Body of `POST /datasets/{dataset_id}/files`: fetch the dataset, check
access, insert the file row with status `"uploaded"`. -/
def add_dataset_file_body (db : DB) (fail : Nat → Bool) (k : Nat) (u : CurrentUser)
    (dataset_id filename file_type storage_path : String) (size_bytes : Int)
    (gen_id gen_created_at : String) : Outcome FileCreateResp × DB × Nat :=
  match fetch_dataset db fail k dataset_id u.firm_id with
  | (.ok b, k1) =>
    match require_client_access db fail k1 u b.client_id with
    | (.ok _, k2) =>
      if fail k2 then (.httpError 500 "Supabase query failed", db, k2 + 1)
      else
        let row : FileRow := ⟨gen_id, dataset_id, b.client_id, u.firm_id, filename,
          file_type, storage_path, size_bytes, FILE_STATUS_UPLOADED, gen_created_at⟩
        (.ok ⟨gen_id⟩, { db with uploaded_files := db.uploaded_files ++ [row] }, k2 + 1)
    | (.httpError c d, k2) => (.httpError c d, db, k2)
    | (.raised, k2) => (.raised, db, k2)
  | (.httpError c d, k1) => (.httpError c d, db, k1)
  | (.raised, k1) => (.raised, db, k1)

/-- `POST /datasets/{id}/process`' response shape. -/
structure ProcResp where
  dataset_id : String
  status : String
  integrity : Integrity
  deriving DecidableEq, Repr

/-- Body of `POST /datasets/{dataset_id}/process`: fetch the dataset, check
access, then unconditionally update the dataset's status to `"ready"` and all
its files' statuses to `"processed"`, reporting the number of updated file
rows as both `files_total` and `files_processed`. -/
def process_dataset_body (db : DB) (fail : Nat → Bool) (k : Nat) (u : CurrentUser)
    (dataset_id : String) : Outcome ProcResp × DB × Nat :=
  match fetch_dataset db fail k dataset_id u.firm_id with
  | (.ok b, k1) =>
    match require_client_access db fail k1 u b.client_id with
    | (.ok _, k2) =>
      if fail k2 then (.httpError 500 "Supabase query failed", db, k2 + 1)
      else
        let ubs := db.upload_batches.map (fun r =>
          if r.id == dataset_id && r.firm_id == u.firm_id then
            { r with status := DATASET_STATUS_READY } else r)
        let db1 := { db with upload_batches := ubs }
        if fail (k2 + 1) then (.httpError 500 "Supabase query failed", db1, k2 + 2)
        else
          let ufs := db1.uploaded_files.map (fun f =>
            if f.dataset_id == dataset_id && f.firm_id == u.firm_id then
              { f with status := FILE_STATUS_PROCESSED } else f)
          let db2 := { db1 with uploaded_files := ufs }
          let n := (fileRows db dataset_id u.firm_id).length
          (.ok ⟨dataset_id, DATASET_STATUS_READY, ⟨n, n, [], []⟩⟩, db2, k2 + 2)
    | (.httpError c d, k2) => (.httpError c d, db, k2)
    | (.raised, k2) => (.raised, db, k2)
  | (.httpError c d, k1) => (.httpError c d, db, k1)
  | (.raised, k1) => (.raised, db, k1)

/-- An element of `GET /clients`' response, with exactly the keys
`client_id`, `name` and `firm_id`. -/
structure ClientOut where
  client_id : String
  name : String
  firm_id : String
  deriving DecidableEq, Repr

/-- Body of `GET /clients` (`backend/main.py`): the access query, the early
empty return (issuing no second query), then the `clients` query scoped to
the granted ids and the caller's firm.  Both queries sit in one `try`, so a
failure of either becomes HTTP 500. -/
def list_clients_body (db : DB) (fail : Nat → Bool) (k : Nat) (u : CurrentUser) :
    Outcome (List ClientOut) × DB × Nat :=
  if fail k then (.httpError 500 "Supabase query failed", db, k + 1)
  else
    let client_ids := ((userAccessRows db u).map (fun r => r.client_id)).filter (fun c => c ≠ "")
    if client_ids.isEmpty then (.ok [], db, k + 1)
    else if fail (k + 1) then (.httpError 500 "Supabase query failed", db, k + 2)
    else
      let rows := db.clients.filter (fun c => client_ids.contains c.id && c.firm_id == u.firm_id)
      (.ok (rows.map (fun c => ⟨c.id, c.name, c.firm_id⟩)), db, k + 2)

/-- FastAPI dependency resolution: run `get_current_user` first (query index
0), then the handler body; an auth error or escaped exception short-circuits
the body. -/
def withAuth {α : Type} (db : DB) (fail : Nat → Bool) (now : Int) (authorization : Option String)
    (body : CurrentUser → Nat → Outcome α × DB × Nat) : Outcome α × DB × Nat :=
  match get_current_user db fail now 0 authorization with
  | (.ok u, k) => body u k
  | (.httpError c d, k) => (.httpError c d, db, k)
  | (.raised, k) => (.raised, db, k)

/-- `GET /me`. -/
def ep_get_me (db : DB) (fail : Nat → Bool) (now : Int) (authorization : Option String) :
    Outcome CurrentUser × DB × Nat :=
  withAuth db fail now authorization (fun u k => (.ok u, db, k))

/-- `GET /clients`. -/
def ep_list_clients (db : DB) (fail : Nat → Bool) (now : Int) (authorization : Option String) :
    Outcome (List ClientOut) × DB × Nat :=
  withAuth db fail now authorization (fun u k => list_clients_body db fail k u)

/-- `POST /datasets/create`. -/
def ep_create_dataset (db : DB) (fail : Nat → Bool) (now : Int) (authorization : Option String)
    (client_id name : String) (notes : Option String) (gen_id gen_created_at : String) :
    Outcome CreateResp × DB × Nat :=
  withAuth db fail now authorization
    (fun u k => create_dataset_body db fail k u client_id name notes gen_id gen_created_at)

/-- `GET /datasets`. -/
def ep_list_datasets (db : DB) (fail : Nat → Bool) (now : Int) (authorization : Option String) :
    Outcome (List DatasetListItem) × DB × Nat :=
  withAuth db fail now authorization (fun u k => list_datasets_body db fail k u)

/-- `GET /datasets/{dataset_id}`. -/
def ep_get_dataset_detail (db : DB) (fail : Nat → Bool) (now : Int)
    (authorization : Option String) (dataset_id : String) : Outcome DetailResp × DB × Nat :=
  withAuth db fail now authorization (fun u k => get_dataset_detail_body db fail k u dataset_id)

/-- `POST /datasets/{dataset_id}/files`. -/
def ep_add_dataset_file (db : DB) (fail : Nat → Bool) (now : Int)
    (authorization : Option String) (dataset_id filename file_type storage_path : String)
    (size_bytes : Int) (gen_id gen_created_at : String) : Outcome FileCreateResp × DB × Nat :=
  withAuth db fail now authorization (fun u k =>
    add_dataset_file_body db fail k u dataset_id filename file_type storage_path size_bytes
      gen_id gen_created_at)

/-- `POST /datasets/{dataset_id}/process`. -/
def ep_process_dataset (db : DB) (fail : Nat → Bool) (now : Int)
    (authorization : Option String) (dataset_id : String) : Outcome ProcResp × DB × Nat :=
  withAuth db fail now authorization (fun u k => process_dataset_body db fail k u dataset_id)

/-- Responses of the unauthenticated constant endpoints. -/
structure StatusResp where
  status : String
  deriving DecidableEq, Repr

/-- `GET /health` (`backend/main.py`): no dependency on the request and no
store query. -/
def ep_health (db : DB) (_authorization : Option String) : Outcome StatusResp × DB × Nat :=
  (.ok ⟨"ok"⟩, db, 0)

/-- `GET /reports` (`backend/routers/reports.py`): constant stub, no
authentication dependency, no store query. -/
def ep_list_reports (db : DB) (_authorization : Option String) : Outcome StatusResp × DB × Nat :=
  (.ok ⟨"not implemented"⟩, db, 0)

/-- `GET /clients/stub` (`backend/routers/clients.py`): constant stub, no
authentication dependency, no store query. -/
def ep_clients_stub (db : DB) (_authorization : Option String) : Outcome StatusResp × DB × Nat :=
  (.ok ⟨"not implemented"⟩, db, 0)

/-- Written from the spec's words for the C7 comparison: the clients for
which the caller holds an access-grant row joining user, firm and client, and
whose `firm_id` equals the caller's, in the response shape of
`list_clients`. -/
def specClientsList (db : DB) (u : CurrentUser) : List ClientOut :=
  (db.clients.filter (fun c =>
    decide (∃ a ∈ db.client_user_access,
      a.user_id = u.app_user_id ∧ a.firm_id = u.firm_id ∧ a.client_id = c.id)
    && c.firm_id == u.firm_id)).map (fun c => ⟨c.id, c.name, c.firm_id⟩)

/-- A failure schedule on which no store query raises. -/
def noFail : Nat → Bool := fun _ => false

/-- A failure schedule on which every store query raises. -/
def allFail : Nat → Bool := fun _ => true

/-- Concrete caller used to evaluate the theorems below. -/
def u1 : CurrentUser := ⟨"au1", "sub-1", "f1", "admin", "a@x.io"⟩

/-- Concrete store used to evaluate the theorems below: one app user in firm
`f1` with a grant on client `c1`, a second firm's client `c2`, one dataset and
one file. -/
def db1 : DB :=
  ⟨[⟨"au1", "sub-1", "f1", "admin", "a@x.io"⟩],
   [⟨"c1", "Acme", "f1"⟩, ⟨"c2", "Bolt", "f2"⟩],
   [⟨"au1", "f1", "c1"⟩],
   [⟨"d1", "c1", "f1", "DS", none, "created", "t0", none, none⟩],
   [⟨"fl1", "d1", "c1", "f1", "a.csv", "csv", "p/a.csv", 10, "uploaded", "t1"⟩]⟩

/-- The empty store. -/
def dbEmpty : DB := ⟨[], [], [], [], []⟩

-- Theorems

/-- C10: `GET /reports` and `GET /clients/stub` require no authentication and
perform no store query; for every request, whatever the `Authorization`
header, each returns the constant object with status `"not implemented"`, and
`GET /health` always returns status `"ok"`. -/
theorem c10_constant_stub_endpoints :
    (∀ (db : DB) (a : Option String), ep_list_reports db a = (.ok ⟨"not implemented"⟩, db, 0)) ∧
    (∀ (db : DB) (a : Option String), ep_clients_stub db a = (.ok ⟨"not implemented"⟩, db, 0)) ∧
    (∀ (db : DB) (a : Option String), ep_health db a = (.ok ⟨"ok"⟩, db, 0)) :=
  ⟨fun _ _ => rfl, fun _ _ => rfl, fun _ _ => rfl⟩

/-- C9: on the happy path of `get_dataset_detail`, the returned integrity
object always has `files_processed = 0` and empty `errors` and `warnings`,
with `files_total` the number of fetched file rows, independent of the files'
actual status values. -/
theorem c9_detail_integrity_constant (db : DB) (fail : Nat → Bool) (k : Nat) (u : CurrentUser)
    (dataset_id : String) (b : BatchRow) (bs : List BatchRow)
    (hb : batchRows db dataset_id u.firm_id = b :: bs)
    (hacc : accessRows db u b.client_id ≠ [])
    (h0 : fail k = false) (h1 : fail (k + 1) = false) (h2 : fail (k + 2) = false) :
    get_dataset_detail_body db fail k u dataset_id =
      (.ok ⟨b.id, b.client_id, b.name, b.notes, b.status, b.created_at,
        (fileRows db dataset_id u.firm_id).map
          (fun f => ⟨f.id, f.filename, f.file_type, f.storage_path, f.size_bytes,
            f.status, f.created_at⟩),
        ⟨(fileRows db dataset_id u.firm_id).length, 0, [], []⟩⟩, db, k + 3) := by
  unfold get_dataset_detail_body fetch_dataset require_client_access
  simp [h0, h1, h2, hb, hacc]

/-- C9 witness: the concrete store's dataset detail, with one `"uploaded"`
file counted in `files_total` but `files_processed = 0`. -/
theorem c9_detail_integrity_constant_witness :
    get_dataset_detail_body db1 noFail 0 u1 "d1" =
      (.ok ⟨"d1", "c1", "DS", none, "created", "t0",
        [⟨"fl1", "a.csv", "csv", "p/a.csv", 10, "uploaded", "t1"⟩],
        ⟨1, 0, [], []⟩⟩, db1, 3) := by
  exact c9_detail_integrity_constant db1 noFail 0 u1 "d1"
    ⟨"d1", "c1", "f1", "DS", none, "created", "t0", none, none⟩ [] rfl (by decide) rfl rfl rfl

/-- C5: when no `upload_batches` row has the requested id together with the
caller's firm id — in particular for a dataset of another firm —
`get_dataset_detail`, `add_dataset_file` and `process_dataset` all answer
HTTP 404 "Dataset not found", leaving the store unchanged, so a cross-firm
dataset is indistinguishable from a nonexistent one. -/
theorem c5_missing_or_cross_firm_dataset_404 :
    (∀ (db : DB) (fail : Nat → Bool) (k : Nat) (u : CurrentUser) (dataset_id : String),
      (∀ b ∈ db.upload_batches, ¬(b.id = dataset_id ∧ b.firm_id = u.firm_id)) →
      fail k = false →
      get_dataset_detail_body db fail k u dataset_id =
        (.httpError 404 "Dataset not found", db, k + 1)) ∧
    (∀ (db : DB) (fail : Nat → Bool) (k : Nat) (u : CurrentUser)
      (dataset_id filename file_type storage_path : String) (size_bytes : Int)
      (gen_id gen_created_at : String),
      (∀ b ∈ db.upload_batches, ¬(b.id = dataset_id ∧ b.firm_id = u.firm_id)) →
      fail k = false →
      add_dataset_file_body db fail k u dataset_id filename file_type storage_path size_bytes
          gen_id gen_created_at =
        (.httpError 404 "Dataset not found", db, k + 1)) ∧
    (∀ (db : DB) (fail : Nat → Bool) (k : Nat) (u : CurrentUser) (dataset_id : String),
      (∀ b ∈ db.upload_batches, ¬(b.id = dataset_id ∧ b.firm_id = u.firm_id)) →
      fail k = false →
      process_dataset_body db fail k u dataset_id =
        (.httpError 404 "Dataset not found", db, k + 1)) := by
  have hrows : ∀ (db : DB) (u : CurrentUser) (dataset_id : String),
      (∀ b ∈ db.upload_batches, ¬(b.id = dataset_id ∧ b.firm_id = u.firm_id)) →
      batchRows db dataset_id u.firm_id = [] := by
    intro db u dataset_id h
    unfold batchRows
    rw [List.filter_eq_nil_iff]
    intro b hb
    simpa using h b hb
  refine ⟨?_, ?_, ?_⟩ <;> intro db fail k u dataset_id
  · intro h hf
    unfold get_dataset_detail_body fetch_dataset
    rw [hrows db u dataset_id h]
    simp [hf]
  · intro filename file_type storage_path size_bytes gen_id gen_created_at h hf
    unfold add_dataset_file_body fetch_dataset
    rw [hrows db u dataset_id h]
    simp [hf]
  · intro h hf
    unfold process_dataset_body fetch_dataset
    rw [hrows db u dataset_id h]
    simp [hf]

/-- C5 witness: dataset `d1` exists only under firm `f1`; a caller from firm
`f9` gets 404 from all three handlers. -/
theorem c5_missing_or_cross_firm_dataset_404_witness :
    get_dataset_detail_body db1 noFail 0 ⟨"au9", "sub-9", "f9", "admin", "b@x.io"⟩ "d1" =
      (.httpError 404 "Dataset not found", db1, 1) ∧
    add_dataset_file_body db1 noFail 0 ⟨"au9", "sub-9", "f9", "admin", "b@x.io"⟩ "d1"
        "a.csv" "csv" "p" 1 "g1" "t9" =
      (.httpError 404 "Dataset not found", db1, 1) ∧
    process_dataset_body db1 noFail 0 ⟨"au9", "sub-9", "f9", "admin", "b@x.io"⟩ "d1" =
      (.httpError 404 "Dataset not found", db1, 1) :=
  ⟨c5_missing_or_cross_firm_dataset_404.1 db1 noFail 0 _ "d1" (by decide) rfl,
   c5_missing_or_cross_firm_dataset_404.2.1 db1 noFail 0 _ "d1" "a.csv" "csv" "p" 1 "g1" "t9"
     (by decide) rfl,
   c5_missing_or_cross_firm_dataset_404.2.2 db1 noFail 0 _ "d1" (by decide) rfl⟩

/-- C8: no status-transition invariant is enforced.  Whatever the dataset's
current status, `process_dataset` updates it to `"ready"`, marks all its
files `"processed"` and answers status `"ready"`; every successful insert of
`_insert_dataset_with_user_reference` writes status `"created"`; and
`add_dataset_file` inserts its file row with status `"uploaded"`. -/
theorem c8_no_status_transition_invariant :
    (∀ (db : DB) (fail : Nat → Bool) (k : Nat) (u : CurrentUser) (dataset_id : String)
      (b : BatchRow) (bs : List BatchRow),
      batchRows db dataset_id u.firm_id = b :: bs →
      accessRows db u b.client_id ≠ [] →
      fail k = false → fail (k + 1) = false → fail (k + 2) = false → fail (k + 3) = false →
      process_dataset_body db fail k u dataset_id =
        (.ok ⟨dataset_id, DATASET_STATUS_READY,
          ⟨(fileRows db dataset_id u.firm_id).length,
           (fileRows db dataset_id u.firm_id).length, [], []⟩⟩,
         ⟨db.app_users, db.clients, db.client_user_access,
          db.upload_batches.map (fun r =>
            if r.id == dataset_id && r.firm_id == u.firm_id then
              { r with status := DATASET_STATUS_READY } else r),
          db.uploaded_files.map (fun f =>
            if f.dataset_id == dataset_id && f.firm_id == u.firm_id then
              { f with status := FILE_STATUS_PROCESSED } else f)⟩,
         k + 4)) ∧
    (∀ (db : DB) (fail : Nat → Bool) (k : Nat) (firm_id client_id name : String)
      (notes : Option String) (user_id gen_id gen_created_at : String)
      (row : BatchRow) (db2 : DB) (k2 : Nat),
      insert_dataset_with_user_reference db fail k firm_id client_id name notes user_id
          gen_id gen_created_at = (.ok row, db2, k2) →
      row.status = DATASET_STATUS_CREATED ∧
        db2 = ⟨db.app_users, db.clients, db.client_user_access,
          db.upload_batches ++ [row], db.uploaded_files⟩) ∧
    (∀ (db : DB) (fail : Nat → Bool) (k : Nat) (u : CurrentUser)
      (dataset_id filename file_type storage_path : String) (size_bytes : Int)
      (gen_id gen_created_at : String) (b : BatchRow) (bs : List BatchRow),
      batchRows db dataset_id u.firm_id = b :: bs →
      accessRows db u b.client_id ≠ [] →
      fail k = false → fail (k + 1) = false → fail (k + 2) = false →
      add_dataset_file_body db fail k u dataset_id filename file_type storage_path size_bytes
          gen_id gen_created_at =
        (.ok ⟨gen_id⟩,
         ⟨db.app_users, db.clients, db.client_user_access, db.upload_batches,
          db.uploaded_files ++ [⟨gen_id, dataset_id, b.client_id, u.firm_id, filename,
            file_type, storage_path, size_bytes, FILE_STATUS_UPLOADED, gen_created_at⟩]⟩,
         k + 3)) := by
  refine ⟨?_, ?_, ?_⟩
  · intro db fail k u dataset_id b bs hb hacc h0 h1 h2 h3
    unfold process_dataset_body fetch_dataset require_client_access
    simp [hb, hacc, h0, h1, h2, h3]
  · intro db fail k firm_id client_id name notes user_id gen_id gen_created_at row db2 k2 h
    unfold insert_dataset_with_user_reference at h
    cases hk : fail k <;> cases hk1 : fail (k + 1) <;> cases hk2 : fail (k + 2) <;>
      simp [hk, hk1, hk2] at h
    all_goals
      obtain ⟨hr, hdb, -⟩ := h
    all_goals
      subst hdb
    all_goals
      simp [← hr, DATASET_STATUS_CREATED]
  · intro db fail k u dataset_id filename file_type storage_path size_bytes gen_id
      gen_created_at b bs hb hacc h0 h1 h2
    unfold add_dataset_file_body fetch_dataset require_client_access
    simp [hb, hacc, h0, h1, h2]

/-- C8 witness: on the concrete store, processing dataset `d1` flips its
status from `"created"` to `"ready"` and its file from `"uploaded"` to
`"processed"`; the insert helper writes `"created"`; `add_dataset_file`
writes `"uploaded"`. -/
theorem c8_no_status_transition_invariant_witness :
    process_dataset_body db1 noFail 0 u1 "d1" =
      (.ok ⟨"d1", "ready", ⟨1, 1, [], []⟩⟩,
       ⟨db1.app_users, db1.clients, db1.client_user_access,
        [⟨"d1", "c1", "f1", "DS", none, "ready", "t0", none, none⟩],
        [⟨"fl1", "d1", "c1", "f1", "a.csv", "csv", "p/a.csv", 10, "processed", "t1"⟩]⟩,
       4) ∧
    ((⟨"g1", "c1", "f1", "N", none, "created", "t9", some "au1", none⟩ : BatchRow).status =
        DATASET_STATUS_CREATED ∧
      ({ db1 with upload_batches := db1.upload_batches ++
          [⟨"g1", "c1", "f1", "N", none, "created", "t9", some "au1", none⟩] } : DB) =
        ⟨db1.app_users, db1.clients, db1.client_user_access,
         db1.upload_batches ++ [⟨"g1", "c1", "f1", "N", none, "created", "t9", some "au1", none⟩],
         db1.uploaded_files⟩) ∧
    add_dataset_file_body db1 noFail 0 u1 "d1" "b.csv" "csv" "p/b.csv" 7 "g2" "t9" =
      (.ok ⟨"g2"⟩,
       ⟨db1.app_users, db1.clients, db1.client_user_access, db1.upload_batches,
        db1.uploaded_files ++ [⟨"g2", "d1", "c1", "f1", "b.csv", "csv", "p/b.csv", 7,
          "uploaded", "t9"⟩]⟩,
       3) := by
  refine ⟨?_, ?_, ?_⟩
  · exact (c8_no_status_transition_invariant.1 db1 noFail 0 u1 "d1"
      ⟨"d1", "c1", "f1", "DS", none, "created", "t0", none, none⟩ [] rfl (by decide)
      rfl rfl rfl rfl).trans (by decide)
  · exact c8_no_status_transition_invariant.2.1 db1 noFail 0 "f1" "c1" "N" none "au1" "g1" "t9"
      ⟨"g1", "c1", "f1", "N", none, "created", "t9", some "au1", none⟩ _ 1 rfl
  · exact (c8_no_status_transition_invariant.2.2 db1 noFail 0 u1 "d1" "b.csv" "csv" "p/b.csv"
      7 "g2" "t9" ⟨"d1", "c1", "f1", "DS", none, "created", "t0", none, none⟩ [] rfl
      (by decide) rfl rfl rfl).trans (by decide)

/-- Inversion for `_require_client_access`: a handler only proceeds past it
when an access-grant row joining the caller's user id, the caller's firm id
and the client id exists. -/
theorem require_client_access_ok_mem (db : DB) (fail : Nat → Bool) (k k' : Nat)
    (u : CurrentUser) (client_id : String)
    (h : require_client_access db fail k u client_id = (.ok (), k')) :
    ∃ a ∈ db.client_user_access,
      a.user_id = u.app_user_id ∧ a.firm_id = u.firm_id ∧ a.client_id = client_id := by
  unfold require_client_access at h
  cases hm : accessRows db u client_id with
  | nil =>
    rw [hm] at h
    by_cases hk : fail k
    · simp [hk] at h
    · simp [hk] at h
  | cons a rest =>
    have ha : a ∈ accessRows db u client_id := by rw [hm]; exact List.mem_cons_self a rest
    unfold accessRows at ha
    have hmem := List.mem_filter.mp ha
    refine ⟨a, hmem.1, ?_⟩
    simpa [and_assoc] using hmem.2

/-- Inversion for `_fetch_dataset`: success means the firm-scoped dataset
query returned the row first. -/
theorem fetch_dataset_ok_cons (db : DB) (fail : Nat → Bool) (k k' : Nat)
    (dataset_id firm_id : String) (b : BatchRow)
    (h : fetch_dataset db fail k dataset_id firm_id = (.ok b, k')) :
    ∃ bs, batchRows db dataset_id firm_id = b :: bs := by
  unfold fetch_dataset at h
  cases hm : batchRows db dataset_id firm_id with
  | nil =>
    rw [hm] at h
    by_cases hk : fail k
    · simp [hk] at h
    · simp [hk] at h
  | cons x xs =>
    rw [hm] at h
    by_cases hk : fail k
    · simp [hk] at h
    · simp [hk] at h
      exact ⟨xs, by rw [h.1]⟩

/-- The 403 branch of `_require_client_access` under an explicit
no-matching-row hypothesis. -/
theorem require_client_access_no_grant (db : DB) (fail : Nat → Bool) (k : Nat)
    (u : CurrentUser) (client_id : String)
    (hacc : ∀ a ∈ db.client_user_access,
      ¬(a.user_id = u.app_user_id ∧ a.firm_id = u.firm_id ∧ a.client_id = client_id))
    (hf : fail k = false) :
    require_client_access db fail k u client_id =
      (.httpError 403 "User does not have access to this client", k + 1) := by
  have hrows : accessRows db u client_id = [] := by
    unfold accessRows
    rw [List.filter_eq_nil_iff]
    intro a ha
    simpa using hacc a ha
  unfold require_client_access
  simp [hf, hrows]

/-- C1: each of `create_dataset`, `get_dataset_detail`, `add_dataset_file`
and `process_dataset` proceeds past authorization only if a
`client_user_access` row joins the caller's `app_user_id`, the caller's
`firm_id` and the target client's id; when no such row exists (the dataset
existing, for the dataset-scoped handlers) the request is rejected with
HTTP 403. -/
theorem c1_access_grant_required :
    (∀ (db : DB) (fail : Nat → Bool) (k : Nat) (u : CurrentUser)
      (client_id name : String) (notes : Option String) (gen_id gen_created_at : String)
      (r : CreateResp) (db2 : DB) (k2 : Nat),
      create_dataset_body db fail k u client_id name notes gen_id gen_created_at =
        (.ok r, db2, k2) →
      ∃ a ∈ db.client_user_access,
        a.user_id = u.app_user_id ∧ a.firm_id = u.firm_id ∧ a.client_id = client_id) ∧
    (∀ (db : DB) (fail : Nat → Bool) (k : Nat) (u : CurrentUser)
      (client_id name : String) (notes : Option String) (gen_id gen_created_at : String),
      (∀ a ∈ db.client_user_access,
        ¬(a.user_id = u.app_user_id ∧ a.firm_id = u.firm_id ∧ a.client_id = client_id)) →
      fail k = false →
      create_dataset_body db fail k u client_id name notes gen_id gen_created_at =
        (.httpError 403 "User does not have access to this client", db, k + 1)) ∧
    (∀ (db : DB) (fail : Nat → Bool) (k : Nat) (u : CurrentUser) (dataset_id : String)
      (r : DetailResp) (db2 : DB) (k2 : Nat),
      get_dataset_detail_body db fail k u dataset_id = (.ok r, db2, k2) →
      ∃ b bs, batchRows db dataset_id u.firm_id = b :: bs ∧
        ∃ a ∈ db.client_user_access,
          a.user_id = u.app_user_id ∧ a.firm_id = u.firm_id ∧ a.client_id = b.client_id) ∧
    (∀ (db : DB) (fail : Nat → Bool) (k : Nat) (u : CurrentUser) (dataset_id : String)
      (b : BatchRow) (bs : List BatchRow),
      batchRows db dataset_id u.firm_id = b :: bs →
      (∀ a ∈ db.client_user_access,
        ¬(a.user_id = u.app_user_id ∧ a.firm_id = u.firm_id ∧ a.client_id = b.client_id)) →
      fail k = false → fail (k + 1) = false →
      get_dataset_detail_body db fail k u dataset_id =
        (.httpError 403 "User does not have access to this client", db, k + 2)) ∧
    (∀ (db : DB) (fail : Nat → Bool) (k : Nat) (u : CurrentUser)
      (dataset_id filename file_type storage_path : String) (size_bytes : Int)
      (gen_id gen_created_at : String) (r : FileCreateResp) (db2 : DB) (k2 : Nat),
      add_dataset_file_body db fail k u dataset_id filename file_type storage_path size_bytes
          gen_id gen_created_at = (.ok r, db2, k2) →
      ∃ b bs, batchRows db dataset_id u.firm_id = b :: bs ∧
        ∃ a ∈ db.client_user_access,
          a.user_id = u.app_user_id ∧ a.firm_id = u.firm_id ∧ a.client_id = b.client_id) ∧
    (∀ (db : DB) (fail : Nat → Bool) (k : Nat) (u : CurrentUser)
      (dataset_id filename file_type storage_path : String) (size_bytes : Int)
      (gen_id gen_created_at : String) (b : BatchRow) (bs : List BatchRow),
      batchRows db dataset_id u.firm_id = b :: bs →
      (∀ a ∈ db.client_user_access,
        ¬(a.user_id = u.app_user_id ∧ a.firm_id = u.firm_id ∧ a.client_id = b.client_id)) →
      fail k = false → fail (k + 1) = false →
      add_dataset_file_body db fail k u dataset_id filename file_type storage_path size_bytes
          gen_id gen_created_at =
        (.httpError 403 "User does not have access to this client", db, k + 2)) ∧
    (∀ (db : DB) (fail : Nat → Bool) (k : Nat) (u : CurrentUser) (dataset_id : String)
      (r : ProcResp) (db2 : DB) (k2 : Nat),
      process_dataset_body db fail k u dataset_id = (.ok r, db2, k2) →
      ∃ b bs, batchRows db dataset_id u.firm_id = b :: bs ∧
        ∃ a ∈ db.client_user_access,
          a.user_id = u.app_user_id ∧ a.firm_id = u.firm_id ∧ a.client_id = b.client_id) ∧
    (∀ (db : DB) (fail : Nat → Bool) (k : Nat) (u : CurrentUser) (dataset_id : String)
      (b : BatchRow) (bs : List BatchRow),
      batchRows db dataset_id u.firm_id = b :: bs →
      (∀ a ∈ db.client_user_access,
        ¬(a.user_id = u.app_user_id ∧ a.firm_id = u.firm_id ∧ a.client_id = b.client_id)) →
      fail k = false → fail (k + 1) = false →
      process_dataset_body db fail k u dataset_id =
        (.httpError 403 "User does not have access to this client", db, k + 2)) := by
  refine ⟨?_, ?_, ?_, ?_, ?_, ?_, ?_, ?_⟩
  · intro db fail k u client_id name notes gen_id gen_created_at r db2 k2 h
    unfold create_dataset_body at h
    rcases hR : require_client_access db fail k u client_id with ⟨o, kk⟩
    cases o with
    | ok a => cases a; exact require_client_access_ok_mem db fail k kk u client_id hR
    | httpError c d => simp only [hR] at h; simp at h
    | raised => simp only [hR] at h; simp at h
  · intro db fail k u client_id name notes gen_id gen_created_at hacc hf
    unfold create_dataset_body
    rw [require_client_access_no_grant db fail k u client_id hacc hf]
  · intro db fail k u dataset_id r db2 k2 h
    unfold get_dataset_detail_body at h
    rcases hF : fetch_dataset db fail k dataset_id u.firm_id with ⟨o1, k1⟩
    cases o1 with
    | ok b =>
      rcases fetch_dataset_ok_cons db fail k k1 dataset_id u.firm_id b hF with ⟨bs, hbs⟩
      rcases hR : require_client_access db fail k1 u b.client_id with ⟨o2, kk⟩
      cases o2 with
      | ok a =>
        cases a
        exact ⟨b, bs, hbs, require_client_access_ok_mem db fail k1 kk u b.client_id hR⟩
      | httpError c d => simp only [hF, hR] at h; simp at h
      | raised => simp only [hF, hR] at h; simp at h
    | httpError c d => simp only [hF] at h; simp at h
    | raised => simp only [hF] at h; simp at h
  · intro db fail k u dataset_id b bs hb hacc h0 h1
    have hreq := require_client_access_no_grant db fail (k + 1) u b.client_id hacc h1
    unfold get_dataset_detail_body fetch_dataset
    simp [h0, hb, hreq]
  · intro db fail k u dataset_id filename file_type storage_path size_bytes gen_id
      gen_created_at r db2 k2 h
    unfold add_dataset_file_body at h
    rcases hF : fetch_dataset db fail k dataset_id u.firm_id with ⟨o1, k1⟩
    cases o1 with
    | ok b =>
      rcases fetch_dataset_ok_cons db fail k k1 dataset_id u.firm_id b hF with ⟨bs, hbs⟩
      rcases hR : require_client_access db fail k1 u b.client_id with ⟨o2, kk⟩
      cases o2 with
      | ok a =>
        cases a
        exact ⟨b, bs, hbs, require_client_access_ok_mem db fail k1 kk u b.client_id hR⟩
      | httpError c d => simp only [hF, hR] at h; simp at h
      | raised => simp only [hF, hR] at h; simp at h
    | httpError c d => simp only [hF] at h; simp at h
    | raised => simp only [hF] at h; simp at h
  · intro db fail k u dataset_id filename file_type storage_path size_bytes gen_id
      gen_created_at b bs hb hacc h0 h1
    have hreq := require_client_access_no_grant db fail (k + 1) u b.client_id hacc h1
    unfold add_dataset_file_body fetch_dataset
    simp [h0, hb, hreq]
  · intro db fail k u dataset_id r db2 k2 h
    unfold process_dataset_body at h
    rcases hF : fetch_dataset db fail k dataset_id u.firm_id with ⟨o1, k1⟩
    cases o1 with
    | ok b =>
      rcases fetch_dataset_ok_cons db fail k k1 dataset_id u.firm_id b hF with ⟨bs, hbs⟩
      rcases hR : require_client_access db fail k1 u b.client_id with ⟨o2, kk⟩
      cases o2 with
      | ok a =>
        cases a
        exact ⟨b, bs, hbs, require_client_access_ok_mem db fail k1 kk u b.client_id hR⟩
      | httpError c d => simp only [hF, hR] at h; simp at h
      | raised => simp only [hF, hR] at h; simp at h
    | httpError c d => simp only [hF] at h; simp at h
    | raised => simp only [hF] at h; simp at h
  · intro db fail k u dataset_id b bs hb hacc h0 h1
    have hreq := require_client_access_no_grant db fail (k + 1) u b.client_id hacc h1
    unfold process_dataset_body fetch_dataset
    simp [h0, hb, hreq]

/-- C1 witness: on the concrete store, the granted caller reaches the happy
path (so a matching grant row exists), while callers without a grant row get
HTTP 403 from all four handlers. -/
theorem c1_access_grant_required_witness :
    (∃ a ∈ db1.client_user_access,
      a.user_id = u1.app_user_id ∧ a.firm_id = u1.firm_id ∧ a.client_id = "c1") ∧
    create_dataset_body db1 noFail 0 u1 "c2" "N" none "g1" "t9" =
      (.httpError 403 "User does not have access to this client", db1, 1) ∧
    (∃ b bs, batchRows db1 "d1" u1.firm_id = b :: bs ∧
      ∃ a ∈ db1.client_user_access,
        a.user_id = u1.app_user_id ∧ a.firm_id = u1.firm_id ∧ a.client_id = b.client_id) ∧
    get_dataset_detail_body db1 noFail 0 ⟨"au2", "sub-2", "f1", "member", "b@x.io"⟩ "d1" =
      (.httpError 403 "User does not have access to this client", db1, 2) ∧
    (∃ b bs, batchRows db1 "d1" u1.firm_id = b :: bs ∧
      ∃ a ∈ db1.client_user_access,
        a.user_id = u1.app_user_id ∧ a.firm_id = u1.firm_id ∧ a.client_id = b.client_id) ∧
    add_dataset_file_body db1 noFail 0 ⟨"au2", "sub-2", "f1", "member", "b@x.io"⟩ "d1"
        "b.csv" "csv" "p" 1 "g2" "t9" =
      (.httpError 403 "User does not have access to this client", db1, 2) ∧
    (∃ b bs, batchRows db1 "d1" u1.firm_id = b :: bs ∧
      ∃ a ∈ db1.client_user_access,
        a.user_id = u1.app_user_id ∧ a.firm_id = u1.firm_id ∧ a.client_id = b.client_id) ∧
    process_dataset_body db1 noFail 0 ⟨"au2", "sub-2", "f1", "member", "b@x.io"⟩ "d1" =
      (.httpError 403 "User does not have access to this client", db1, 2) := by
  refine ⟨?_, ?_, ?_, ?_, ?_, ?_, ?_, ?_⟩
  · exact c1_access_grant_required.1 db1 noFail 0 u1 "c1" "N" none "g1" "t9" _ _ _ rfl
  · exact c1_access_grant_required.2.1 db1 noFail 0 u1 "c2" "N" none "g1" "t9"
      (by decide) rfl
  · exact c1_access_grant_required.2.2.1 db1 noFail 0 u1 "d1" _ _ _ rfl
  · exact c1_access_grant_required.2.2.2.1 db1 noFail 0 _ "d1"
      ⟨"d1", "c1", "f1", "DS", none, "created", "t0", none, none⟩ [] rfl (by decide) rfl rfl
  · exact c1_access_grant_required.2.2.2.2.1 db1 noFail 0 u1 "d1" "b.csv" "csv" "p" 1
      "g2" "t9" _ _ _ rfl
  · exact c1_access_grant_required.2.2.2.2.2.1 db1 noFail 0 _ "d1" "b.csv" "csv" "p" 1
      "g2" "t9" ⟨"d1", "c1", "f1", "DS", none, "created", "t0", none, none⟩ [] rfl
      (by decide) rfl rfl
  · exact c1_access_grant_required.2.2.2.2.2.2.1 db1 noFail 0 u1 "d1" _ _ _ rfl
  · exact c1_access_grant_required.2.2.2.2.2.2.2 db1 noFail 0 _ "d1"
      ⟨"d1", "c1", "f1", "DS", none, "created", "t0", none, none⟩ [] rfl (by decide) rfl rfl

/-- A bearer header is a nonempty string. -/
theorem bearer_ne_empty (t : String) : "Bearer " ++ t ≠ "" := by
  intro h
  have h2 : "Bearer ".data ++ t.data = [] := by
    rw [← String.data_append, h]
  exact absurd (List.append_eq_nil.mp h2).1 (by decide)

/-- Code points distribute over string append. -/
theorem strCodes_append (a b : String) : strCodes (a ++ b) = strCodes a ++ strCodes b := by
  simp [strCodes, String.data_append]

/-- `partition(" ")` on a well-formed bearer header splits scheme and
token. -/
theorem partition_bearer (t : String) :
    pyPartitionSpace (strCodes ("Bearer " ++ t)) = (strCodes "Bearer", strCodes t) := by
  rw [strCodes_append, show strCodes "Bearer " = [66, 101, 97, 114, 101, 114, 32] from rfl,
    show strCodes "Bearer" = [66, 101, 97, 114, 101, 114] from rfl]
  simp [pyPartitionSpace]

/-- `get_current_user` on a well-formed bearer header reduces to the JWT
decode of the token followed by the claims checks. -/
theorem get_current_user_bearer (db : DB) (fail : Nat → Bool) (now : Int) (k : Nat)
    (t : String) (ht : strCodes t ≠ []) :
    get_current_user db fail now k (some ("Bearer " ++ t)) =
      (match decode_jwt_unverified (strCodes t) with
       | .ok payload => gcuClaims db fail now k payload
       | .httpError c d => (.httpError c d, k)
       | .raised => (.raised, k)) := by
  have hcond : ¬(¬(asciiLower (strCodes "Bearer") = strCodes "bearer") ∨ strCodes t = []) := by
    push_neg
    exact ⟨by decide, ht⟩
  unfold get_current_user
  simp [bearer_ne_empty t, partition_bearer, hcond]

/-- C2: `get_current_user` performs no signature verification — for any two
bearer tokens with three dot-separated segments whose payload (second)
segments are equal, its behaviour is identical for every store, failure
schedule and clock, whatever the header and signature segments are. -/
theorem c2_outcome_ignores_header_and_signature (db : DB) (fail : Nat → Bool) (now : Int)
    (k : Nat) (t1 t2 : String) (h1 p s1 h2 s2 : List Nat)
    (e1 : splitOnDot (strCodes t1) = [h1, p, s1])
    (e2 : splitOnDot (strCodes t2) = [h2, p, s2]) :
    get_current_user db fail now k (some ("Bearer " ++ t1)) =
      get_current_user db fail now k (some ("Bearer " ++ t2)) := by
  have ht1 : strCodes t1 ≠ [] := by
    intro hnil
    rw [hnil] at e1
    simp [splitOnDot] at e1
  have ht2 : strCodes t2 ≠ [] := by
    intro hnil
    rw [hnil] at e2
    simp [splitOnDot] at e2
  rw [get_current_user_bearer db fail now k t1 ht1, get_current_user_bearer db fail now k t2 ht2]
  unfold decode_jwt_unverified
  rw [e1, e2]

/-- C2 witness: two concrete tokens sharing only the payload segment `e30`
(`{}`) produce identical outcomes. -/
theorem c2_outcome_ignores_header_and_signature_witness :
    get_current_user db1 noFail 0 0 (some ("Bearer " ++ "AA.e30.BB")) =
      get_current_user db1 noFail 0 0 (some ("Bearer " ++ "zz.e30.")) :=
  c2_outcome_ignores_header_and_signature db1 noFail 0 0 "AA.e30.BB" "zz.e30."
    (strCodes "AA") (strCodes "e30") (strCodes "BB") (strCodes "zz") (strCodes "")
    (by decide) (by decide)

set_option linter.unnecessarySeqFocus false in
/-- C4: missing or invalid authentication is rejected with 401 or 403: a
missing `Authorization` header, a non-Bearer scheme (or empty token), a token
without exactly three dot-separated segments, a payload that does not decode
as base64url-encoded JSON, a missing `sub` claim, a missing `exp` claim, and
an expired integer `exp` each yield HTTP 401, while a validly decoded token
whose `sub` matches no `app_users` row yields HTTP 403. -/
theorem c4_auth_failures_401_403 :
    (∀ (db : DB) (fail : Nat → Bool) (now : Int) (k : Nat),
      get_current_user db fail now k none =
        (.httpError 401 "Authorization header missing", k)) ∧
    (∀ (db : DB) (fail : Nat → Bool) (now : Int) (k : Nat) (a : String),
      a ≠ "" →
      (¬asciiLower (pyPartitionSpace (strCodes a)).1 = strCodes "bearer" ∨
        (pyPartitionSpace (strCodes a)).2 = []) →
      get_current_user db fail now k (some a) =
        (.httpError 401 "Authorization header must be a Bearer token", k)) ∧
    (∀ (db : DB) (fail : Nat → Bool) (now : Int) (k : Nat) (t : String),
      strCodes t ≠ [] →
      (splitOnDot (strCodes t)).length ≠ 3 →
      get_current_user db fail now k (some ("Bearer " ++ t)) =
        (.httpError 401 "Invalid JWT format", k)) ∧
    (∀ (db : DB) (fail : Nat → Bool) (now : Int) (k : Nat) (t : String)
      (h1 p s1 : List Nat),
      splitOnDot (strCodes t) = [h1, p, s1] →
      payloadDecode p = none →
      get_current_user db fail now k (some ("Bearer " ++ t)) =
        (.httpError 401 "Invalid JWT payload", k)) ∧
    (∀ (db : DB) (fail : Nat → Bool) (now : Int) (k : Nat) (t : String)
      (h1 p s1 : List Nat) (kvs : List (List Nat × Json)),
      splitOnDot (strCodes t) = [h1, p, s1] →
      payloadDecode p = some (.jobj kvs) →
      jGetLast kvs (strCodes "sub") = none →
      get_current_user db fail now k (some ("Bearer " ++ t)) =
        (.httpError 401 "JWT subject (sub) claim missing", k)) ∧
    (∀ (db : DB) (fail : Nat → Bool) (now : Int) (k : Nat) (t : String)
      (h1 p s1 : List Nat) (kvs : List (List Nat × Json)),
      splitOnDot (strCodes t) = [h1, p, s1] →
      payloadDecode p = some (.jobj kvs) →
      jGetLast kvs (strCodes "exp") = none →
      ∃ d, get_current_user db fail now k (some ("Bearer " ++ t)) =
        (.httpError 401 d, k)) ∧
    (∀ (db : DB) (fail : Nat → Bool) (now : Int) (k : Nat) (t : String)
      (h1 p s1 : List Nat) (kvs : List (List Nat × Json)) (n : Int),
      splitOnDot (strCodes t) = [h1, p, s1] →
      payloadDecode p = some (.jobj kvs) →
      jGetLast kvs (strCodes "exp") = some (.jint n) →
      n < now →
      ∃ d, get_current_user db fail now k (some ("Bearer " ++ t)) =
        (.httpError 401 d, k)) ∧
    (∀ (db : DB) (fail : Nat → Bool) (now : Int) (k : Nat) (t : String)
      (h1 p s1 : List Nat) (kvs : List (List Nat × Json)) (sv : List Nat) (n : Int),
      splitOnDot (strCodes t) = [h1, p, s1] →
      payloadDecode p = some (.jobj kvs) →
      jGetLast kvs (strCodes "sub") = some (.jstr sv) →
      sv ≠ [] →
      jGetLast kvs (strCodes "exp") = some (.jint n) →
      ¬ n < now →
      fail k = false →
      db.app_users.filter (fun r => strCodes r.auth_user_id == sv) = [] →
      get_current_user db fail now k (some ("Bearer " ++ t)) =
        (.httpError 403 "No app user record; create app_users row.", k + 1)) := by
  refine ⟨?_, ?_, ?_, ?_, ?_, ?_, ?_, ?_⟩
  · intro db fail now k
    rfl
  · intro db fail now k a ha hcond
    unfold get_current_user
    simp [ha, hcond]
  · intro db fail now k t ht hlen
    rw [get_current_user_bearer db fail now k t ht]
    unfold decode_jwt_unverified
    rcases hs : splitOnDot (strCodes t) with _ | ⟨a, _ | ⟨b, _ | ⟨c, _ | ⟨d, l⟩⟩⟩⟩ <;>
      rw [hs] at hlen <;> simp at hlen ⊢
  · intro db fail now k t h1 p s1 hs hdec
    have ht : strCodes t ≠ [] := by
      intro hnil
      rw [hnil] at hs
      simp [splitOnDot] at hs
    rw [get_current_user_bearer db fail now k t ht]
    unfold decode_jwt_unverified
    rw [hs]
    simp [hdec]
  · intro db fail now k t h1 p s1 kvs hs hdec hsub
    have ht : strCodes t ≠ [] := by
      intro hnil
      rw [hnil] at hs
      simp [splitOnDot] at hs
    rw [get_current_user_bearer db fail now k t ht]
    unfold decode_jwt_unverified
    rw [hs]
    unfold gcuClaims
    simp [hdec, hsub]
  · intro db fail now k t h1 p s1 kvs hs hdec hexp
    have ht : strCodes t ≠ [] := by
      intro hnil
      rw [hnil] at hs
      simp [splitOnDot] at hs
    rw [get_current_user_bearer db fail now k t ht]
    unfold decode_jwt_unverified
    rw [hs]
    unfold gcuClaims
    rcases hsub : jGetLast kvs (strCodes "sub") with - | sv
    · exact ⟨"JWT subject (sub) claim missing", by simp [hdec, hsub]⟩
    · by_cases htr : pyTruthy sv
      · exact ⟨"JWT exp claim missing", by simp [hdec, hsub, htr, hexp]⟩
      · exact ⟨"JWT subject (sub) claim missing", by simp [hdec, hsub, htr]⟩
  · intro db fail now k t h1 p s1 kvs n hs hdec hexp hlt
    have ht : strCodes t ≠ [] := by
      intro hnil
      rw [hnil] at hs
      simp [splitOnDot] at hs
    rw [get_current_user_bearer db fail now k t ht]
    unfold decode_jwt_unverified
    rw [hs]
    unfold gcuClaims
    rcases hsub : jGetLast kvs (strCodes "sub") with - | sv
    · exact ⟨"JWT subject (sub) claim missing", by simp [hdec, hsub]⟩
    · by_cases htr : pyTruthy sv
      · exact ⟨"JWT has expired", by simp [hdec, hsub, htr, hexp, pyInt, hlt]⟩
      · exact ⟨"JWT subject (sub) claim missing", by simp [hdec, hsub, htr]⟩
  · intro db fail now k t h1 p s1 kvs sv n hs hdec hsub hsv hexp hge hf hrows
    have ht : strCodes t ≠ [] := by
      intro hnil
      rw [hnil] at hs
      simp [splitOnDot] at hs
    rw [get_current_user_bearer db fail now k t ht]
    unfold decode_jwt_unverified
    rw [hs]
    unfold gcuClaims
    have hfind : db.app_users.find? (fun r => strCodes r.auth_user_id == jAsEq (.jstr sv)) =
        none := by
      rw [List.find?_eq_none]
      intro x hx
      have hnp := List.filter_eq_nil_iff.mp hrows x hx
      simpa [jAsEq] using hnp
    simp [hdec, hsub, hsv, hexp, pyInt, hge, hf, pyTruthy, hfind]

/-- C4 witness: concrete requests hitting each authentication failure mode
(missing header, wrong scheme, wrong segment count, undecodable payload,
missing `sub`, missing `exp`, expired `exp`, and unknown `sub`). -/
theorem c4_auth_failures_401_403_witness :
    get_current_user db1 noFail 0 0 none =
      (.httpError 401 "Authorization header missing", 0) ∧
    get_current_user db1 noFail 0 0 (some "Token abc") =
      (.httpError 401 "Authorization header must be a Bearer token", 0) ∧
    get_current_user db1 noFail 0 0 (some ("Bearer " ++ "a.b")) =
      (.httpError 401 "Invalid JWT format", 0) ∧
    get_current_user db1 noFail 0 0 (some ("Bearer " ++ "h.!!!.s")) =
      (.httpError 401 "Invalid JWT payload", 0) ∧
    get_current_user db1 noFail 0 0 (some ("Bearer " ++ "h.e30.s")) =
      (.httpError 401 "JWT subject (sub) claim missing", 0) ∧
    (∃ d, get_current_user db1 noFail 0 0 (some ("Bearer " ++ "h.eyJzdWIiOiJ1In0.s")) =
      (.httpError 401 d, 0)) ∧
    (∃ d, get_current_user db1 noFail 1 0 (some ("Bearer " ++ "h.eyJzdWIiOiJ1MSIsImV4cCI6MH0.s")) =
      (.httpError 401 d, 0)) ∧
    get_current_user db1 noFail 0 0 (some ("Bearer " ++ "h.eyJzdWIiOiJ6eiIsImV4cCI6OX0.s")) =
      (.httpError 403 "No app user record; create app_users row.", 1) := by
  refine ⟨?_, ?_, ?_, ?_, ?_, ?_, ?_, ?_⟩
  · exact c4_auth_failures_401_403.1 db1 noFail 0 0
  · exact c4_auth_failures_401_403.2.1 db1 noFail 0 0 "Token abc" (by decide) (by decide)
  · exact c4_auth_failures_401_403.2.2.1 db1 noFail 0 0 "a.b" (by decide) (by decide)
  · exact c4_auth_failures_401_403.2.2.2.1 db1 noFail 0 0 "h.!!!.s"
      (strCodes "h") (strCodes "!!!") (strCodes "s") (by decide) rfl
  · exact c4_auth_failures_401_403.2.2.2.2.1 db1 noFail 0 0 "h.e30.s"
      (strCodes "h") (strCodes "e30") (strCodes "s") [] (by decide) rfl rfl
  · exact c4_auth_failures_401_403.2.2.2.2.2.1 db1 noFail 0 0 "h.eyJzdWIiOiJ1In0.s"
      (strCodes "h") (strCodes "eyJzdWIiOiJ1In0") (strCodes "s")
      [(strCodes "sub", .jstr (strCodes "u"))] (by decide) rfl rfl
  · exact c4_auth_failures_401_403.2.2.2.2.2.2.1 db1 noFail 1 0 "h.eyJzdWIiOiJ1MSIsImV4cCI6MH0.s"
      (strCodes "h") (strCodes "eyJzdWIiOiJ1MSIsImV4cCI6MH0") (strCodes "s")
      [(strCodes "sub", .jstr (strCodes "u1")), (strCodes "exp", .jint 0)] 0
      (by decide) rfl rfl (by decide)
  · exact c4_auth_failures_401_403.2.2.2.2.2.2.2 db1 noFail 0 0 "h.eyJzdWIiOiJ6eiIsImV4cCI6OX0.s"
      (strCodes "h") (strCodes "eyJzdWIiOiJ6eiIsImV4cCI6OX0") (strCodes "s")
      [(strCodes "sub", .jstr (strCodes "zz")), (strCodes "exp", .jint 9)] (strCodes "zz") 9
      (by decide) rfl rfl (by decide) rfl (by decide) rfl rfl


/-- A client id is in `list_clients`' granted-ids list exactly when an
access-grant row joins the caller, the caller's firm and that client (under
the schema assumption that matching grant rows carry a nonempty client
id). -/
theorem mem_granted_ids_iff (db : DB) (u : CurrentUser) (x : String)
    (hne : ∀ a ∈ db.client_user_access,
      a.user_id = u.app_user_id → a.firm_id = u.firm_id → a.client_id ≠ "") :
    (x ∈ ((userAccessRows db u).map (fun r => r.client_id)).filter (fun s => s ≠ "")) ↔
      (∃ a ∈ db.client_user_access,
        a.user_id = u.app_user_id ∧ a.firm_id = u.firm_id ∧ a.client_id = x) := by
  constructor
  · intro hx
    obtain ⟨hmap, hxne⟩ := List.mem_filter.mp hx
    obtain ⟨a, ha, hax⟩ := List.mem_map.mp hmap
    unfold userAccessRows at ha
    obtain ⟨ha2, hpred⟩ := List.mem_filter.mp ha
    simp only [Bool.and_eq_true, beq_iff_eq] at hpred
    exact ⟨a, ha2, hpred.1, hpred.2, hax⟩
  · rintro ⟨a, ha, h1, h2, h3⟩
    apply List.mem_filter.mpr
    constructor
    · apply List.mem_map.mpr
      refine ⟨a, ?_, h3⟩
      unfold userAccessRows
      exact List.mem_filter.mpr ⟨ha, by simp [h1, h2]⟩
    · have hx : x ≠ "" := h3 ▸ hne a ha h1 h2
      simpa using hx

/-- C7: on the happy path `list_clients` returns exactly the clients for
which the caller holds an access grant and whose firm matches the caller's
(shaped as `client_id`/`name`/`firm_id` objects), and when the caller holds
no access grants it returns the empty list after the single access query,
never consulting the `clients` table (the result holds whatever the failure
schedule says about the second query). -/
theorem c7_list_clients_exact :
    (∀ (db : DB) (fail : Nat → Bool) (k : Nat) (u : CurrentUser),
      fail k = false → fail (k + 1) = false →
      (∀ a ∈ db.client_user_access,
        a.user_id = u.app_user_id → a.firm_id = u.firm_id → a.client_id ≠ "") →
      (list_clients_body db fail k u).1 = .ok (specClientsList db u)) ∧
    (∀ (db : DB) (fail : Nat → Bool) (k : Nat) (u : CurrentUser),
      userAccessRows db u = [] → fail k = false →
      list_clients_body db fail k u = (.ok [], db, k + 1)) := by
  constructor
  · intro db fail k u h0 h1 hne
    have hfilters : db.clients.filter (fun c =>
        (((userAccessRows db u).map (fun r => r.client_id)).filter
          (fun s => s ≠ "")).contains c.id && c.firm_id == u.firm_id) =
        db.clients.filter (fun c =>
          decide (∃ a ∈ db.client_user_access,
            a.user_id = u.app_user_id ∧ a.firm_id = u.firm_id ∧ a.client_id = c.id)
          && c.firm_id == u.firm_id) := by
      apply List.filter_congr
      intro c hc
      have heq : (((userAccessRows db u).map (fun r => r.client_id)).filter
          (fun s => s ≠ "")).contains c.id =
          decide (∃ a ∈ db.client_user_access,
            a.user_id = u.app_user_id ∧ a.firm_id = u.firm_id ∧ a.client_id = c.id) :=
        (List.elem_eq_mem c.id _).trans (decide_eq_decide.mpr (mem_granted_ids_iff db u c.id hne))
      rw [heq]
    unfold list_clients_body
    dsimp only
    rw [h0, if_neg Bool.false_ne_true]
    by_cases he : (((userAccessRows db u).map (fun r => r.client_id)).filter
        (fun s => s ≠ "")).isEmpty
    · rw [if_pos he]
      have hnil : db.clients.filter (fun c =>
          decide (∃ a ∈ db.client_user_access,
            a.user_id = u.app_user_id ∧ a.firm_id = u.firm_id ∧ a.client_id = c.id)
          && c.firm_id == u.firm_id) = [] := by
        rw [List.filter_eq_nil_iff]
        intro c hc hcond
        simp only [Bool.and_eq_true, decide_eq_true_eq] at hcond
        have hx := (mem_granted_ids_iff db u c.id hne).mpr hcond.1
        rw [List.isEmpty_iff] at he
        rw [he] at hx
        exact absurd hx (List.not_mem_nil c.id)
      unfold specClientsList
      rw [hnil]
      rfl
    · rw [if_neg he, h1, if_neg Bool.false_ne_true]
      unfold specClientsList
      dsimp only
      rw [hfilters]
  · intro db fail k u hrows h0
    unfold list_clients_body
    simp [h0, hrows]

/-- C7 witness: the granted caller sees exactly firm `f1`'s client `c1` (not
the other firm's `c2`), and a caller with no grants gets `[]` after one
query even though the second query would fail. -/
theorem c7_list_clients_exact_witness :
    (list_clients_body db1 noFail 0 u1).1 = .ok [⟨"c1", "Acme", "f1"⟩] ∧
    list_clients_body dbEmpty (fun i => i ≠ 0) 0 u1 = (.ok [], dbEmpty, 1) := by
  constructor
  · exact (c7_list_clients_exact.1 db1 noFail 0 u1 rfl rfl (by decide)).trans (by decide)
  · exact c7_list_clients_exact.2 dbEmpty (fun i => i ≠ 0) 0 u1 rfl rfl

/-- `_insert_dataset_with_user_reference` leaves the store unchanged whenever
it raises an `HTTPException` (all three attempts failed, nothing was
inserted). -/
theorem insert_dataset_user_ref_error_db (db : DB) (fail : Nat → Bool) (k : Nat)
    (firm_id client_id name : String) (notes : Option String)
    (user_id gen_id gen_created_at : String) (c : Nat) (d : String) (db2 : DB) (k2 : Nat)
    (h : insert_dataset_with_user_reference db fail k firm_id client_id name notes user_id
      gen_id gen_created_at = (.httpError c d, db2, k2)) :
    db2 = db := by
  unfold insert_dataset_with_user_reference at h
  split at h
  · split at h
    · split at h
      · injection h with h1 h23
        injection h23 with h2 h3
        exact h2.symm
      · simp at h
    · simp at h
  · simp at h

/-- `create_dataset`'s body leaves the store unchanged on every
`HTTPException`. -/
theorem create_body_error_db (db : DB) (fail : Nat → Bool) (k : Nat) (u : CurrentUser)
    (client_id name : String) (notes : Option String) (gen_id gen_created_at : String)
    (c : Nat) (d : String) (db2 : DB) (k2 : Nat)
    (h : create_dataset_body db fail k u client_id name notes gen_id gen_created_at =
      (.httpError c d, db2, k2)) :
    db2 = db := by
  unfold create_dataset_body at h
  rcases hR : require_client_access db fail k u client_id with ⟨o, kk⟩
  cases o with
  | ok a =>
    cases a
    simp only [hR] at h
    rcases hI : insert_dataset_with_user_reference db fail kk u.firm_id client_id name notes
        u.app_user_id gen_id gen_created_at with ⟨oI, db3, k3⟩
    cases oI with
    | ok row => simp only [hI] at h; simp at h
    | httpError cI dI =>
      simp only [hI] at h
      have hdb3 := insert_dataset_user_ref_error_db db fail kk u.firm_id client_id name notes
        u.app_user_id gen_id gen_created_at cI dI db3 k3 hI
      injection h with h1 h23
      injection h23 with h2 h3
      exact h2 ▸ hdb3
    | raised => simp only [hI] at h; simp at h
  | httpError c0 d0 =>
    simp only [hR] at h
    injection h with h1 h23
    injection h23 with h2 h3
    exact h2.symm
  | raised => simp only [hR] at h; simp at h

/-- `add_dataset_file`'s body leaves the store unchanged on every
`HTTPException`. -/
theorem add_body_error_db (db : DB) (fail : Nat → Bool) (k : Nat) (u : CurrentUser)
    (dataset_id filename file_type storage_path : String) (size_bytes : Int)
    (gen_id gen_created_at : String) (c : Nat) (d : String) (db2 : DB) (k2 : Nat)
    (h : add_dataset_file_body db fail k u dataset_id filename file_type storage_path
      size_bytes gen_id gen_created_at = (.httpError c d, db2, k2)) :
    db2 = db := by
  unfold add_dataset_file_body at h
  rcases hF : fetch_dataset db fail k dataset_id u.firm_id with ⟨o1, k1⟩
  cases o1 with
  | ok b =>
    simp only [hF] at h
    rcases hR : require_client_access db fail k1 u b.client_id with ⟨o2, kk⟩
    cases o2 with
    | ok a =>
      cases a
      simp only [hR] at h
      split at h
      · injection h with h1 h23
        injection h23 with h2 h3
        exact h2.symm
      · simp at h
    | httpError c0 d0 =>
      simp only [hR] at h
      injection h with h1 h23
      injection h23 with h2 h3
      exact h2.symm
    | raised => simp only [hR] at h; simp at h
  | httpError c0 d0 =>
    simp only [hF] at h
    injection h with h1 h23
    injection h23 with h2 h3
    exact h2.symm
  | raised => simp only [hF] at h; simp at h

/-- `process_dataset`'s body leaves the store unchanged on every
`HTTPException` other than 500 (a 500 after the first update has already
persisted the dataset-status update). -/
theorem process_body_error_db (db : DB) (fail : Nat → Bool) (k : Nat) (u : CurrentUser)
    (dataset_id : String) (c : Nat) (d : String) (db2 : DB) (k2 : Nat)
    (h : process_dataset_body db fail k u dataset_id = (.httpError c d, db2, k2))
    (hc : c ≠ 500) :
    db2 = db := by
  unfold process_dataset_body at h
  rcases hF : fetch_dataset db fail k dataset_id u.firm_id with ⟨o1, k1⟩
  cases o1 with
  | ok b =>
    simp only [hF] at h
    rcases hR : require_client_access db fail k1 u b.client_id with ⟨o2, kk⟩
    cases o2 with
    | ok a =>
      cases a
      simp only [hR] at h
      split at h
      · injection h with h1 h23
        injection h23 with h2 h3
        exact h2.symm
      · split at h
        · injection h with h1 h23
          injection h1 with hcc hdd
          exact absurd hcc.symm hc
        · simp at h
    | httpError c0 d0 =>
      simp only [hR] at h
      injection h with h1 h23
      injection h23 with h2 h3
      exact h2.symm
    | raised => simp only [hR] at h; simp at h
  | httpError c0 d0 =>
    simp only [hF] at h
    injection h with h1 h23
    injection h23 with h2 h3
    exact h2.symm
  | raised => simp only [hF] at h; simp at h

/-- C6: every handler resolves authentication, then the access grant (and,
for dataset-scoped handlers, the dataset fetch), before its main query; as a
consequence, whenever a mutating endpoint (`create_dataset`,
`add_dataset_file`, `process_dataset`) rejects a request with 401, 403 or
404, the store is unchanged. -/
theorem c6_mutators_unchanged_on_4xx :
    (∀ (db : DB) (fail : Nat → Bool) (now : Int) (authorization : Option String)
      (client_id name : String) (notes : Option String) (gen_id gen_created_at : String)
      (c : Nat) (d : String) (db2 : DB) (k2 : Nat),
      ep_create_dataset db fail now authorization client_id name notes gen_id gen_created_at =
        (.httpError c d, db2, k2) →
      c = 401 ∨ c = 403 ∨ c = 404 → db2 = db) ∧
    (∀ (db : DB) (fail : Nat → Bool) (now : Int) (authorization : Option String)
      (dataset_id filename file_type storage_path : String) (size_bytes : Int)
      (gen_id gen_created_at : String) (c : Nat) (d : String) (db2 : DB) (k2 : Nat),
      ep_add_dataset_file db fail now authorization dataset_id filename file_type storage_path
        size_bytes gen_id gen_created_at = (.httpError c d, db2, k2) →
      c = 401 ∨ c = 403 ∨ c = 404 → db2 = db) ∧
    (∀ (db : DB) (fail : Nat → Bool) (now : Int) (authorization : Option String)
      (dataset_id : String) (c : Nat) (d : String) (db2 : DB) (k2 : Nat),
      ep_process_dataset db fail now authorization dataset_id = (.httpError c d, db2, k2) →
      c = 401 ∨ c = 403 ∨ c = 404 → db2 = db) := by
  refine ⟨?_, ?_, ?_⟩
  · intro db fail now authorization client_id name notes gen_id gen_created_at c d db2 k2 h hc
    unfold ep_create_dataset withAuth at h
    rcases hA : get_current_user db fail now 0 authorization with ⟨oA, kA⟩
    cases oA with
    | ok uu =>
      simp only [hA] at h
      exact create_body_error_db db fail kA uu client_id name notes gen_id gen_created_at
        c d db2 k2 h
    | httpError cA dA =>
      simp only [hA] at h
      injection h with h1 h23
      injection h23 with h2 h3
      exact h2.symm
    | raised => simp only [hA] at h; simp at h
  · intro db fail now authorization dataset_id filename file_type storage_path size_bytes
      gen_id gen_created_at c d db2 k2 h hc
    unfold ep_add_dataset_file withAuth at h
    rcases hA : get_current_user db fail now 0 authorization with ⟨oA, kA⟩
    cases oA with
    | ok uu =>
      simp only [hA] at h
      exact add_body_error_db db fail kA uu dataset_id filename file_type storage_path
        size_bytes gen_id gen_created_at c d db2 k2 h
    | httpError cA dA =>
      simp only [hA] at h
      injection h with h1 h23
      injection h23 with h2 h3
      exact h2.symm
    | raised => simp only [hA] at h; simp at h
  · intro db fail now authorization dataset_id c d db2 k2 h hc
    have hc500 : c ≠ 500 := by rcases hc with h5 | h5 | h5 <;> omega
    unfold ep_process_dataset withAuth at h
    rcases hA : get_current_user db fail now 0 authorization with ⟨oA, kA⟩
    cases oA with
    | ok uu =>
      simp only [hA] at h
      exact process_body_error_db db fail kA uu dataset_id c d db2 k2 h hc500
    | httpError cA dA =>
      simp only [hA] at h
      injection h with h1 h23
      injection h23 with h2 h3
      exact h2.symm
    | raised => simp only [hA] at h; simp at h

/-- C6 witness: with a valid token for the concrete caller, a 403 (cross
client) and 404s (missing dataset) from the three mutating endpoints leave
the store exactly as it was. -/
theorem c6_mutators_unchanged_on_4xx_witness :
    (ep_create_dataset db1 noFail 0 (some "Bearer h.eyJzdWIiOiJzdWItMSIsImV4cCI6NX0.s")
      "c2" "N" none "g1" "t9").2.1 = db1 ∧
    (ep_add_dataset_file db1 noFail 0 (some "Bearer h.eyJzdWIiOiJzdWItMSIsImV4cCI6NX0.s")
      "dX" "a.csv" "csv" "p" 1 "g2" "t9").2.1 = db1 ∧
    (ep_process_dataset db1 noFail 0 (some "Bearer h.eyJzdWIiOiJzdWItMSIsImV4cCI6NX0.s")
      "dX").2.1 = db1 := by
  refine ⟨?_, ?_, ?_⟩
  · exact c6_mutators_unchanged_on_4xx.1 db1 noFail 0
      (some "Bearer h.eyJzdWIiOiJzdWItMSIsImV4cCI6NX0.s") "c2" "N" none "g1" "t9"
      403 "User does not have access to this client" _ 2 rfl (Or.inr (Or.inl rfl))
  · exact c6_mutators_unchanged_on_4xx.2.1 db1 noFail 0
      (some "Bearer h.eyJzdWIiOiJzdWItMSIsImV4cCI6NX0.s") "dX" "a.csv" "csv" "p" 1 "g2" "t9"
      404 "Dataset not found" _ 2 rfl (Or.inr (Or.inr rfl))
  · exact c6_mutators_unchanged_on_4xx.2.2 db1 noFail 0
      (some "Bearer h.eyJzdWIiOiJzdWItMSIsImV4cCI6NX0.s") "dX"
      404 "Dataset not found" _ 2 rfl (Or.inr (Or.inr rfl))

/-- The wrapped access-check query never lets an exception escape. -/
theorem require_not_raised (db : DB) (fail : Nat → Bool) (k : Nat) (u : CurrentUser)
    (client_id : String) : (require_client_access db fail k u client_id).1 ≠ .raised := by
  unfold require_client_access
  split
  · simp
  · split <;> simp

/-- The wrapped dataset-fetch query never lets an exception escape. -/
theorem fetch_not_raised (db : DB) (fail : Nat → Bool) (k : Nat)
    (dataset_id firm_id : String) : (fetch_dataset db fail k dataset_id firm_id).1 ≠ .raised := by
  unfold fetch_dataset
  split
  · simp
  · split <;> simp

/-- The wrapped granted-ids query never lets an exception escape. -/
theorem accessible_ids_not_raised (db : DB) (fail : Nat → Bool) (k : Nat) (u : CurrentUser) :
    (get_accessible_client_ids db fail k u).1 ≠ .raised := by
  unfold get_accessible_client_ids
  split <;> simp

/-- The dataset-insert helper never lets an exception escape (every `except`
branch either retries or raises an `HTTPException`). -/
theorem insert_dataset_user_ref_not_raised (db : DB) (fail : Nat → Bool) (k : Nat)
    (firm_id client_id name : String) (notes : Option String)
    (user_id gen_id gen_created_at : String) :
    (insert_dataset_with_user_reference db fail k firm_id client_id name notes user_id
      gen_id gen_created_at).1 ≠ .raised := by
  unfold insert_dataset_with_user_reference
  split
  · split
    · split <;> simp
    · simp
  · simp

/-- `create_dataset`'s body never lets a store exception escape. -/
theorem create_body_not_raised (db : DB) (fail : Nat → Bool) (k : Nat) (u : CurrentUser)
    (client_id name : String) (notes : Option String) (gen_id gen_created_at : String) :
    (create_dataset_body db fail k u client_id name notes gen_id gen_created_at).1 ≠
      .raised := by
  unfold create_dataset_body
  rcases hR : require_client_access db fail k u client_id with ⟨o, kk⟩
  cases o with
  | ok a =>
    cases a
    rcases hI : insert_dataset_with_user_reference db fail kk u.firm_id client_id name notes
        u.app_user_id gen_id gen_created_at with ⟨oI, db3, k3⟩
    cases oI with
    | ok row => simp only [hR, hI]; simp
    | httpError cI dI => simp only [hR, hI]; simp
    | raised =>
      have hni := insert_dataset_user_ref_not_raised db fail kk u.firm_id client_id name notes
        u.app_user_id gen_id gen_created_at
      rw [hI] at hni
      simp at hni
  | httpError c0 d0 => simp only [hR]; simp
  | raised =>
    have hnr := require_not_raised db fail k u client_id
    rw [hR] at hnr
    simp at hnr

/-- `list_datasets`' body never lets a store exception escape. -/
theorem list_datasets_body_not_raised (db : DB) (fail : Nat → Bool) (k : Nat)
    (u : CurrentUser) : (list_datasets_body db fail k u).1 ≠ .raised := by
  unfold list_datasets_body
  rcases hA : get_accessible_client_ids db fail k u with ⟨o, k1⟩
  cases o with
  | ok ids =>
    simp only [hA]
    by_cases hi : ids.isEmpty
    · simp [hi]
    · by_cases h1 : fail k1 <;> simp [hi, h1]
  | httpError c0 d0 => simp only [hA]; simp
  | raised =>
    have hna := accessible_ids_not_raised db fail k u
    rw [hA] at hna
    simp at hna

/-- `get_dataset_detail`'s body never lets a store exception escape. -/
theorem detail_body_not_raised (db : DB) (fail : Nat → Bool) (k : Nat) (u : CurrentUser)
    (dataset_id : String) : (get_dataset_detail_body db fail k u dataset_id).1 ≠ .raised := by
  unfold get_dataset_detail_body
  rcases hF : fetch_dataset db fail k dataset_id u.firm_id with ⟨o1, k1⟩
  cases o1 with
  | ok b =>
    rcases hR : require_client_access db fail k1 u b.client_id with ⟨o2, kk⟩
    cases o2 with
    | ok a => cases a; simp only [hF, hR]; split <;> simp
    | httpError c0 d0 => simp only [hF, hR]; simp
    | raised =>
      have hnr := require_not_raised db fail k1 u b.client_id
      rw [hR] at hnr
      simp at hnr
  | httpError c0 d0 => simp only [hF]; simp
  | raised =>
    have hnf := fetch_not_raised db fail k dataset_id u.firm_id
    rw [hF] at hnf
    simp at hnf

/-- `add_dataset_file`'s body never lets a store exception escape. -/
theorem add_body_not_raised (db : DB) (fail : Nat → Bool) (k : Nat) (u : CurrentUser)
    (dataset_id filename file_type storage_path : String) (size_bytes : Int)
    (gen_id gen_created_at : String) :
    (add_dataset_file_body db fail k u dataset_id filename file_type storage_path size_bytes
      gen_id gen_created_at).1 ≠ .raised := by
  unfold add_dataset_file_body
  rcases hF : fetch_dataset db fail k dataset_id u.firm_id with ⟨o1, k1⟩
  cases o1 with
  | ok b =>
    rcases hR : require_client_access db fail k1 u b.client_id with ⟨o2, kk⟩
    cases o2 with
    | ok a => cases a; simp only [hF, hR]; split <;> simp
    | httpError c0 d0 => simp only [hF, hR]; simp
    | raised =>
      have hnr := require_not_raised db fail k1 u b.client_id
      rw [hR] at hnr
      simp at hnr
  | httpError c0 d0 => simp only [hF]; simp
  | raised =>
    have hnf := fetch_not_raised db fail k dataset_id u.firm_id
    rw [hF] at hnf
    simp at hnf

/-- `process_dataset`'s body never lets a store exception escape. -/
theorem process_body_not_raised (db : DB) (fail : Nat → Bool) (k : Nat) (u : CurrentUser)
    (dataset_id : String) : (process_dataset_body db fail k u dataset_id).1 ≠ .raised := by
  unfold process_dataset_body
  rcases hF : fetch_dataset db fail k dataset_id u.firm_id with ⟨o1, k1⟩
  cases o1 with
  | ok b =>
    rcases hR : require_client_access db fail k1 u b.client_id with ⟨o2, kk⟩
    cases o2 with
    | ok a =>
      cases a
      simp only [hF, hR]
      by_cases hkk : fail kk
      · simp [hkk]
      · by_cases hkk1 : fail (kk + 1) <;> simp [hkk, hkk1]
    | httpError c0 d0 => simp only [hF, hR]; simp
    | raised =>
      have hnr := require_not_raised db fail k1 u b.client_id
      rw [hR] at hnr
      simp at hnr
  | httpError c0 d0 => simp only [hF]; simp
  | raised =>
    have hnf := fetch_not_raised db fail k dataset_id u.firm_id
    rw [hF] at hnf
    simp at hnf

/-- `list_clients`' body never lets a store exception escape. -/
theorem list_clients_body_not_raised (db : DB) (fail : Nat → Bool) (k : Nat)
    (u : CurrentUser) : (list_clients_body db fail k u).1 ≠ .raised := by
  unfold list_clients_body
  cases h0 : fail k
  case true => simp [h0]
  case false =>
    cases h1 : fail (k + 1)
    all_goals simp [h0, h1]
    all_goals try (split <;> simp)

/-- C3 counterexample: with a valid token, when the `app_users` query of
`get_current_user` raises, `GET /me` ends with the exception escaping the
handler (`raised`) — the handler does not raise `HTTPException` 500, so not
every store exception is translated into an HTTP 500 response. -/
theorem c3_counterexample_auth_query_exception_propagates :
    ep_get_me db1 allFail 0 (some "Bearer h.eyJzdWIiOiJzdWItMSIsImV4cCI6NX0.s") =
      (.raised, db1, 1) ∧
    (Outcome.raised : Outcome CurrentUser) ≠ .httpError 500 "Supabase query failed" :=
  ⟨rfl, by decide⟩

/-- C3 (amended): no store exception escapes the router handler bodies — a
failing query inside their `try` blocks becomes HTTP 500, and in
`create_dataset`'s insert helper an exception during a user-column attempt is
swallowed and the insert retried (500 only when every attempt fails) — but
the `app_users` lookup in `get_current_user` is not wrapped, so its exception
propagates out of the handler instead of becoming an `HTTPException`. -/
theorem c3_amended_exception_translation :
    (∀ (db : DB) (fail : Nat → Bool) (k : Nat) (u : CurrentUser)
      (client_id name : String) (notes : Option String) (gen_id gen_created_at : String),
      (create_dataset_body db fail k u client_id name notes gen_id gen_created_at).1 ≠
        .raised) ∧
    (∀ (db : DB) (fail : Nat → Bool) (k : Nat) (u : CurrentUser),
      (list_datasets_body db fail k u).1 ≠ .raised) ∧
    (∀ (db : DB) (fail : Nat → Bool) (k : Nat) (u : CurrentUser) (dataset_id : String),
      (get_dataset_detail_body db fail k u dataset_id).1 ≠ .raised) ∧
    (∀ (db : DB) (fail : Nat → Bool) (k : Nat) (u : CurrentUser)
      (dataset_id filename file_type storage_path : String) (size_bytes : Int)
      (gen_id gen_created_at : String),
      (add_dataset_file_body db fail k u dataset_id filename file_type storage_path
        size_bytes gen_id gen_created_at).1 ≠ .raised) ∧
    (∀ (db : DB) (fail : Nat → Bool) (k : Nat) (u : CurrentUser) (dataset_id : String),
      (process_dataset_body db fail k u dataset_id).1 ≠ .raised) ∧
    (∀ (db : DB) (fail : Nat → Bool) (k : Nat) (u : CurrentUser),
      (list_clients_body db fail k u).1 ≠ .raised) ∧
    (∀ (db : DB) (fail : Nat → Bool) (k : Nat) (u : CurrentUser)
      (client_id name : String) (notes : Option String) (gen_id gen_created_at : String),
      fail k = true →
      (create_dataset_body db fail k u client_id name notes gen_id gen_created_at).1 =
        .httpError 500 "Supabase query failed") ∧
    (∀ (db : DB) (fail : Nat → Bool) (k : Nat) (u : CurrentUser),
      fail k = true →
      (list_datasets_body db fail k u).1 = .httpError 500 "Supabase query failed") ∧
    (∀ (db : DB) (fail : Nat → Bool) (k : Nat) (u : CurrentUser) (dataset_id : String),
      fail k = true →
      (get_dataset_detail_body db fail k u dataset_id).1 =
        .httpError 500 "Supabase query failed") ∧
    (∀ (db : DB) (fail : Nat → Bool) (k : Nat) (u : CurrentUser)
      (dataset_id filename file_type storage_path : String) (size_bytes : Int)
      (gen_id gen_created_at : String),
      fail k = true →
      (add_dataset_file_body db fail k u dataset_id filename file_type storage_path
        size_bytes gen_id gen_created_at).1 = .httpError 500 "Supabase query failed") ∧
    (∀ (db : DB) (fail : Nat → Bool) (k : Nat) (u : CurrentUser) (dataset_id : String),
      fail k = true →
      (process_dataset_body db fail k u dataset_id).1 =
        .httpError 500 "Supabase query failed") ∧
    (∀ (db : DB) (fail : Nat → Bool) (k : Nat) (u : CurrentUser),
      fail k = true →
      (list_clients_body db fail k u).1 = .httpError 500 "Supabase query failed") ∧
    (∀ (db : DB) (fail : Nat → Bool) (k : Nat) (firm_id client_id name : String)
      (notes : Option String) (user_id gen_id gen_created_at : String),
      fail k = true → fail (k + 1) = false →
      insert_dataset_with_user_reference db fail k firm_id client_id name notes user_id
          gen_id gen_created_at =
        (.ok ⟨gen_id, client_id, firm_id, name, notes, DATASET_STATUS_CREATED,
          gen_created_at, none, some user_id⟩,
         ⟨db.app_users, db.clients, db.client_user_access,
          db.upload_batches ++ [⟨gen_id, client_id, firm_id, name, notes,
            DATASET_STATUS_CREATED, gen_created_at, none, some user_id⟩],
          db.uploaded_files⟩, k + 2)) ∧
    (∀ (db : DB) (fail : Nat → Bool) (now : Int) (k : Nat) (t : String)
      (h1 p s1 : List Nat) (kvs : List (List Nat × Json)) (sv : List Nat) (n : Int),
      splitOnDot (strCodes t) = [h1, p, s1] →
      payloadDecode p = some (.jobj kvs) →
      jGetLast kvs (strCodes "sub") = some (.jstr sv) →
      sv ≠ [] →
      jGetLast kvs (strCodes "exp") = some (.jint n) →
      ¬ n < now →
      fail k = true →
      get_current_user db fail now k (some ("Bearer " ++ t)) = (.raised, k + 1)) := by
  refine ⟨create_body_not_raised, list_datasets_body_not_raised, detail_body_not_raised,
    add_body_not_raised, process_body_not_raised, list_clients_body_not_raised,
    ?_, ?_, ?_, ?_, ?_, ?_, ?_, ?_⟩
  · intro db fail k u client_id name notes gen_id gen_created_at hk
    unfold create_dataset_body require_client_access
    simp [hk]
  · intro db fail k u hk
    unfold list_datasets_body get_accessible_client_ids
    simp [hk]
  · intro db fail k u dataset_id hk
    unfold get_dataset_detail_body fetch_dataset
    simp [hk]
  · intro db fail k u dataset_id filename file_type storage_path size_bytes gen_id
      gen_created_at hk
    unfold add_dataset_file_body fetch_dataset
    simp [hk]
  · intro db fail k u dataset_id hk
    unfold process_dataset_body fetch_dataset
    simp [hk]
  · intro db fail k u hk
    unfold list_clients_body
    simp [hk]
  · intro db fail k firm_id client_id name notes user_id gen_id gen_created_at h0 h1
    unfold insert_dataset_with_user_reference
    simp [h0, h1]
  · intro db fail now k t h1 p s1 kvs sv n hs hdec hsub hsv hexp hge hf
    have ht : strCodes t ≠ [] := by
      intro hnil
      rw [hnil] at hs
      simp [splitOnDot] at hs
    rw [get_current_user_bearer db fail now k t ht]
    unfold decode_jwt_unverified
    rw [hs]
    unfold gcuClaims
    simp [hdec, hsub, hsv, hexp, pyInt, hge, hf, pyTruthy]

/-- C3 (amended) witness: on the concrete store, every handler body survives
an all-failing schedule without a `raised` outcome and reports 500; the
insert helper succeeds on its second attempt after a first-attempt
exception; and the unwrapped `app_users` lookup propagates its exception. -/
theorem c3_amended_exception_translation_witness :
    (create_dataset_body db1 allFail 0 u1 "c1" "N" none "g1" "t9").1 ≠ .raised ∧
    (list_datasets_body db1 allFail 0 u1).1 ≠ .raised ∧
    (get_dataset_detail_body db1 allFail 0 u1 "d1").1 ≠ .raised ∧
    (add_dataset_file_body db1 allFail 0 u1 "d1" "b.csv" "csv" "p" 1 "g2" "t9").1 ≠ .raised ∧
    (process_dataset_body db1 allFail 0 u1 "d1").1 ≠ .raised ∧
    (list_clients_body db1 allFail 0 u1).1 ≠ .raised ∧
    (create_dataset_body db1 allFail 0 u1 "c1" "N" none "g1" "t9").1 =
      .httpError 500 "Supabase query failed" ∧
    (list_datasets_body db1 allFail 0 u1).1 = .httpError 500 "Supabase query failed" ∧
    (get_dataset_detail_body db1 allFail 0 u1 "d1").1 =
      .httpError 500 "Supabase query failed" ∧
    (add_dataset_file_body db1 allFail 0 u1 "d1" "b.csv" "csv" "p" 1 "g2" "t9").1 =
      .httpError 500 "Supabase query failed" ∧
    (process_dataset_body db1 allFail 0 u1 "d1").1 = .httpError 500 "Supabase query failed" ∧
    (list_clients_body db1 allFail 0 u1).1 = .httpError 500 "Supabase query failed" ∧
    insert_dataset_with_user_reference db1 (fun i => i = 0) 0 "f1" "c1" "N" none
        "au1" "g1" "t9" =
      (.ok ⟨"g1", "c1", "f1", "N", none, DATASET_STATUS_CREATED, "t9", none, some "au1"⟩,
       ⟨db1.app_users, db1.clients, db1.client_user_access,
        db1.upload_batches ++ [⟨"g1", "c1", "f1", "N", none, DATASET_STATUS_CREATED, "t9",
          none, some "au1"⟩],
        db1.uploaded_files⟩, 2) ∧
    get_current_user db1 allFail 0 0 (some ("Bearer " ++ "h.eyJzdWIiOiJzdWItMSIsImV4cCI6NX0.s")) =
      (.raised, 1) := by
  refine ⟨c3_amended_exception_translation.1 db1 allFail 0 u1 "c1" "N" none "g1" "t9",
    c3_amended_exception_translation.2.1 db1 allFail 0 u1,
    c3_amended_exception_translation.2.2.1 db1 allFail 0 u1 "d1",
    c3_amended_exception_translation.2.2.2.1 db1 allFail 0 u1 "d1" "b.csv" "csv" "p" 1
      "g2" "t9",
    c3_amended_exception_translation.2.2.2.2.1 db1 allFail 0 u1 "d1",
    c3_amended_exception_translation.2.2.2.2.2.1 db1 allFail 0 u1,
    c3_amended_exception_translation.2.2.2.2.2.2.1 db1 allFail 0 u1 "c1" "N" none "g1"
      "t9" rfl,
    c3_amended_exception_translation.2.2.2.2.2.2.2.1 db1 allFail 0 u1 rfl,
    c3_amended_exception_translation.2.2.2.2.2.2.2.2.1 db1 allFail 0 u1 "d1" rfl,
    c3_amended_exception_translation.2.2.2.2.2.2.2.2.2.1 db1 allFail 0 u1 "d1" "b.csv"
      "csv" "p" 1 "g2" "t9" rfl,
    c3_amended_exception_translation.2.2.2.2.2.2.2.2.2.2.1 db1 allFail 0 u1 "d1" rfl,
    c3_amended_exception_translation.2.2.2.2.2.2.2.2.2.2.2.1 db1 allFail 0 u1 rfl,
    c3_amended_exception_translation.2.2.2.2.2.2.2.2.2.2.2.2.1 db1 (fun i => i = 0) 0
      "f1" "c1" "N" none "au1" "g1" "t9" rfl rfl,
    c3_amended_exception_translation.2.2.2.2.2.2.2.2.2.2.2.2.2 db1 allFail 0 0
      "h.eyJzdWIiOiJzdWItMSIsImV4cCI6NX0.s" (strCodes "h")
      (strCodes "eyJzdWIiOiJzdWItMSIsImV4cCI6NX0") (strCodes "s")
      [(strCodes "sub", .jstr (strCodes "sub-1")), (strCodes "exp", .jint 5)]
      (strCodes "sub-1") 5 (by decide) rfl rfl (by decide) rfl (by decide) rfl⟩
